import Mathlib

/-!
# Vulkan prepack rewrite passes (`torch/csrc/jit/passes/vulkan_rewrite.cpp`)

A shallow embedding of the Vulkan mobile-optimisation passes of the TorchScript
JIT, together with the properties of the rewrite rules and of the pass pipeline
that the design document states.

* Pattern graphs are embedded in parsed form: the IR text of every pattern in the
  source is quoted above the `Graph` value that stands for it.
* The passes this file only calls (`FuseLinear`, `SubgraphRewriter::runOnGraph`,
  `freeze_module`, ...) are fields of `Collaborators`; they may read and write an
  arbitrary state and may fail.
* The two arms of `#ifdef USE_VULKAN` are the namespaces `WithVulkan` and
  `WithoutVulkan`.
-/

namespace torch.jit

/-! ## Data model -/

/-- Modelled from the spec: an interned, namespaced operator name such as `ns::op`
(`c10::Symbol`, declared outside this file); two symbols are equal exactly when
their qualified strings are. -/
structure Symbol where
  qualString : String
deriving DecidableEq, Repr

/-- Modelled from the spec: `Symbol::fromQualString`, the symbol of a qualified name. -/
def Symbol.fromQualString (s : String) : Symbol := ⟨s⟩

/-- Modelled from the spec: a Value, a single definition site, identified by its name
and carrying an optional static type annotation. -/
structure Value where
  name : String
  type : Option String
deriving DecidableEq, Repr

/-- Modelled from the spec: a Node has a kind, an ordered list of input Values (by
name), an ordered list of output Values and zero or more static attributes (the
literal is kept as written, e.g. `value=0.0`). -/
structure Node where
  outputs : List Value
  kind : Symbol
  attributes : List (String × String)
  inputs : List String
deriving DecidableEq, Repr

/-- Modelled from the spec: a Graph is an ordered list of Nodes plus ordered lists of
input Values and of returned Values. A Pattern is a Graph whose inputs are the
named placeholders. -/
structure Graph where
  inputs : List Value
  nodes : List Node
  outputs : List String
deriving DecidableEq, Repr

/-- Every value name a graph declares (its inputs) or produces (its node outputs). -/
def Graph.valueNames (g : Graph) : List String :=
  g.inputs.map (·.name) ++ g.nodes.flatMap (fun n => n.outputs.map (·.name))

/-- The names of the values produced by the nodes of a graph. -/
def Graph.producedNames (g : Graph) : List String :=
  g.nodes.flatMap (fun n => n.outputs.map (·.name))

/-- The operator kinds occurring in a graph, in node order. -/
def Graph.kinds (g : Graph) : List Symbol :=
  g.nodes.map (·.kind)

/-- The nodes of a graph one of whose outputs has the given name. -/
def Graph.producers (g : Graph) (name : String) : List Node :=
  g.nodes.filter (fun n => n.outputs.any (fun v => v.name == name))

/-- The nodes of a graph of the given kind. -/
def Graph.nodesOfKind (g : Graph) (k : Symbol) : List Node :=
  g.nodes.filter (fun n => n.kind == k)

/-- An untyped value `%name`. -/
def Value.untyped (name : String) : Value := ⟨name, none⟩

/-- A value with a type annotation, `%name : ty`. -/
def Value.typed (name ty : String) : Value := ⟨name, some ty⟩

/-- Modelled from the spec: one rewrite rule as `SubgraphRewriter` records it, the
"before" pattern, the replacement pattern and the ordered list of value-name
pairs registered with them. -/
structure RewritePatternDescr where
  pattern : Graph
  replacement : Graph
  value_name_pairs : List (String × String)
deriving DecidableEq, Repr

/-- Modelled from the spec: a `SubgraphRewriter` holds the rules registered so far,
in registration order. -/
structure SubgraphRewriter where
  patterns : List RewritePatternDescr
deriving DecidableEq, Repr

/-- A freshly constructed rewriter has no rule. -/
def SubgraphRewriter.new : SubgraphRewriter := ⟨[]⟩

/-- Modelled from the spec: `RegisterRewritePattern` appends one rule. -/
def SubgraphRewriter.RegisterRewritePattern (r : SubgraphRewriter)
    (pattern replacement : Graph) (value_name_pairs : List (String × String)) :
    SubgraphRewriter :=
  ⟨r.patterns ++ [⟨pattern, replacement, value_name_pairs⟩]⟩

/-! ## Modules, failures and stateful passes -/

/-- Modelled from the spec: a static type handle (`TypePtr`), kept as its name. -/
structure TypePtr where
  str : String
deriving DecidableEq, Repr

/-- Modelled from the spec: `BoolType::get()`, the type of booleans. -/
def BoolType.get : TypePtr := ⟨"bool"⟩

/-- Modelled from the spec: the constant values an attribute can hold (`IValue`);
only the cases this file needs are listed. -/
inductive IValue where
  | none
  | bool (b : Bool)
  | int (i : Int)
  | string (s : String)
deriving DecidableEq, Repr

/-- Modelled from the spec: a method of the host module tree, a name owning a graph. -/
structure Method where
  name : String
  graph : Graph
deriving DecidableEq, Repr

/-- Modelled from the spec: the host module tree (`script::Module`): a module owns its
methods, its sub-modules and its attributes. -/
inductive Module where
  | mk (methods : List Method) (children : List Module)
      (attributes : List (String × TypePtr × IValue))
deriving Repr

/-- Modelled from the spec: `get_methods()`, the methods of a module in order. -/
def Module.get_methods : Module → List Method
  | .mk methods _ _ => methods

/-- Modelled from the spec: `children()`, the directly owned sub-modules in order. -/
def Module.children : Module → List Module
  | .mk _ children _ => children

/-- The attributes of a module. -/
def Module.attributes : Module → List (String × TypePtr × IValue)
  | .mk _ _ attributes => attributes

/-- The attribute of the given name, when the module has one. -/
def Module.attr (m : Module) (name : String) : Option (TypePtr × IValue) :=
  (m.attributes.find? (fun a => a.1 == name)).map (·.2)

/-- Modelled from the spec: `register_attribute(name, type, value)` stamps the
attribute on the module, replacing an attribute of that name. -/
def Module.register_attribute (m : Module) (name : String) (t : TypePtr) (v : IValue) :
    Module :=
  .mk m.get_methods m.children
    (m.attributes.filter (fun a => !(a.1 == name)) ++ [(name, t, v)])

/-- The module with its methods replaced: the graphs of a module are mutated in
place by the passes, which the embedding renders by writing them back. -/
def Module.with_methods (m : Module) (methods : List Method) : Module :=
  .mk methods m.children m.attributes

/-- The first method of the given name. -/
def Module.find_method (m : Module) (name : String) : Option Method :=
  m.get_methods.find? (fun f => f.name == name)

/-- Replace the graph of the first method of the given name. -/
def Method.set_graph_in (name : String) (g : Graph) : List Method → List Method
  | [] => []
  | f :: fs => if f.name == name then { f with graph := g } :: fs
      else f :: Method.set_graph_in name g fs

/-- The module after the graph of its method `name` was mutated into `g`. -/
def Module.with_method_graph (m : Module) (name : String) (g : Graph) : Module :=
  m.with_methods (Method.set_graph_in name g m.get_methods)

/-- The ways a pass can abort. -/
inductive Error where
  | internalAssert (msg : String)
  | methodNotFound (name : String)
  | outOfRange
  | collaborator (msg : String)
deriving DecidableEq, Repr

/-- A computation that reads and writes a state `σ` and either returns a value or
aborts; the state survives an abort, so that what was done before it is visible. -/
def Pass (σ α : Type) : Type := σ → Except Error α × σ

/-- Return a value, leaving the state alone. -/
def Pass.pure {σ α : Type} (a : α) : Pass σ α := fun s => (.ok a, s)

/-- Run `x`, and when it returns run `f` on its value in the state `x` left. -/
def Pass.bind {σ α β : Type} (x : Pass σ α) (f : α → Pass σ β) : Pass σ β := fun s =>
  match x s with
  | (.ok a, s') => f a s'
  | (.error e, s') => (.error e, s')

/-- Abort, leaving the state alone. -/
def Pass.fail {σ α : Type} (e : Error) : Pass σ α := fun s => (.error e, s)

instance {σ : Type} : Monad (Pass σ) where
  pure := Pass.pure
  bind := Pass.bind

/-- Modelled from the spec: `TORCH_INTERNAL_ASSERT(cond, msg)` is a fatal failure
carrying `msg` when `cond` is false, and does nothing otherwise. -/
def TORCH_INTERNAL_ASSERT {σ : Type} (cond : Bool) (msg : String) : Pass σ Unit :=
  if cond then Pass.pure () else Pass.fail (.internalAssert msg)

/-- Modelled from the spec: `get_method(name)`, which fails when the module has no
method of that name. -/
def Module.get_method {σ : Type} (m : Module) (name : String) : Pass σ Method :=
  match m.find_method name with
  | some f => Pass.pure f
  | none => Pass.fail (.methodNotFound name)

/-- Modelled from the spec: a handle on a Value of a graph (`Value*`). -/
structure ValuePtr where
  addr : Nat
deriving DecidableEq, Repr

/-- Modelled from the spec: a Match, the binding of the pattern's Values to the
Values of the target graph. -/
structure Match where
  values_map : List (ValuePtr × ValuePtr)
deriving DecidableEq, Repr

/-- Modelled from the spec: `unordered_map::at`, which fails on a missing key. -/
def mapAt {κ ν : Type} [DecidableEq κ] (m : List (κ × ν)) (k : κ) : Except Error ν :=
  match m.find? (fun e => e.1 = k) with
  | some e => .ok e.2
  | none => .error .outOfRange

/-- Modelled from the spec: a Filter Predicate, a side-effect-free check of a
candidate match given the pattern's name-to-Value map. -/
abbrev MatchFilter : Type := Match → List (String × ValuePtr) → Except Error Bool

/-- Modelled from the spec: a predicate on nodes handed to the prepack folder. -/
abbrev PrePackingOpsFilterFn : Type := Node → Bool

/-- The passes and helpers this file calls and does not define. Each pass takes the
object it mutates and returns it as mutated. -/
structure Collaborators (σ : Type) where
  FuseLinear : Graph → Pass σ Graph
  replaceConvolutionWithAtenConv : Graph → Pass σ Graph
  runOnGraph : SubgraphRewriter → Option MatchFilter → Graph → Pass σ Graph
  getFuncName : ValuePtr → Except Error String
  isClampFusable : MatchFilter
  clone : Module → Pass σ Module
  eval : Module → Pass σ Module
  FoldConvBatchNorm : Module → Pass σ Module
  freeze_module : Module → List String → Pass σ Module
  PrePackingOpsFolder : Module → PrePackingOpsFilterFn → String → Pass σ Module
  removeDropout : Module → Pass σ Module
  RemoveTensorMutation : Graph → Pass σ Graph
  runOptimization : Graph → Bool → Pass σ Graph

/-- Run a graph pass on the graph of every method of the list, first to last. -/
def forEachMethod {σ : Type} (f : Graph → Pass σ Graph) : List Method → Pass σ (List Method)
  | [] => pure []
  | method :: rest => do
      let graph ← f method.graph
      let rest ← forEachMethod f rest
      pure ({ method with graph := graph } :: rest)

/-! ## The build with `USE_VULKAN` -/

namespace WithVulkan

/-! ## The pattern graphs of `insertPrePackedLinearOp` -/

/-- Source text of the pattern:
```
graph(%linear, %input, %weight, %bias):
    %res = prim::CallFunction(%linear, %input, %weight, %bias)
    return (%res)
```
-/
def insertPrePackedLinearOp.linear_before_inline : Graph where
  inputs := [.untyped "linear", .untyped "input", .untyped "weight", .untyped "bias"]
  nodes := [
    { outputs := [.untyped "res"]
      kind := .fromQualString "prim::CallFunction"
      attributes := []
      inputs := ["linear", "input", "weight", "bias"] } ]
  outputs := ["res"]

/-- Source text of the pattern:
```
graph(%linear, %input, %weight, %bias):
    %weight_t = aten::t(%weight)
    %packed_weight_bias = vulkan_prepack::linear_prepack(
        %weight_t, %bias)
    %res = vulkan_prepack::linear_run(%input, %packed_weight_bias)
    return (%res)
```
-/
def insertPrePackedLinearOp.prepacked_ops_pattern_before_inline : Graph where
  inputs := [.untyped "linear", .untyped "input", .untyped "weight", .untyped "bias"]
  nodes := [
    { outputs := [.untyped "weight_t"]
      kind := .fromQualString "aten::t"
      attributes := []
      inputs := ["weight"] },
    { outputs := [.untyped "packed_weight_bias"]
      kind := .fromQualString "vulkan_prepack::linear_prepack"
      attributes := []
      inputs := ["weight_t", "bias"] },
    { outputs := [.untyped "res"]
      kind := .fromQualString "vulkan_prepack::linear_run"
      attributes := []
      inputs := ["input", "packed_weight_bias"] } ]
  outputs := ["res"]

/-- The pairs `{{"weight_t", "res"}, {"packed_weight_bias", "res"}, {"res", "res"}}`. -/
def insertPrePackedLinearOp.value_mappings : List (String × String) :=
  [("weight_t", "res"), ("packed_weight_bias", "res"), ("res", "res")]

/-- Source text of the pattern:
```
graph(%input, %weight, %bias):
    %res = aten::linear(%input, %weight, %bias)
    return (%res)
```
-/
def insertPrePackedLinearOp.linear_pattern : Graph where
  inputs := [.untyped "input", .untyped "weight", .untyped "bias"]
  nodes := [
    { outputs := [.untyped "res"]
      kind := .fromQualString "aten::linear"
      attributes := []
      inputs := ["input", "weight", "bias"] } ]
  outputs := ["res"]

/-- Source text of the pattern:
```
graph(%input, %weight, %bias):
    %weight_t = aten::t(%weight)
    %packed_weight_bias = vulkan_prepack::linear_prepack(
        %weight_t, %bias)
    %res = vulkan_prepack::linear_run(%input, %packed_weight_bias)
    return (%res)
```
-/
def insertPrePackedLinearOp.prepacked_ops_pattern : Graph where
  inputs := [.untyped "input", .untyped "weight", .untyped "bias"]
  nodes := [
    { outputs := [.untyped "weight_t"]
      kind := .fromQualString "aten::t"
      attributes := []
      inputs := ["weight"] },
    { outputs := [.untyped "packed_weight_bias"]
      kind := .fromQualString "vulkan_prepack::linear_prepack"
      attributes := []
      inputs := ["weight_t", "bias"] },
    { outputs := [.untyped "res"]
      kind := .fromQualString "vulkan_prepack::linear_run"
      attributes := []
      inputs := ["input", "packed_weight_bias"] } ]
  outputs := ["res"]

/-! ## The pattern graphs of `insertPrePackedConv2dOp` -/

/-- Source text of the pattern:
```
graph(%input, %weight, %bias, %stride:int[], %padding:int[], %dilation:int[], %groups:int):
    %res = aten::conv2d(%input, %weight, %bias, %stride, %padding, %dilation, %groups)
    return (%res)
```
-/
def insertPrePackedConv2dOp.conv_2d_pattern : Graph where
  inputs := [.untyped "input", .untyped "weight", .untyped "bias", .typed "stride" "int[]",
    .typed "padding" "int[]", .typed "dilation" "int[]", .typed "groups" "int"]
  nodes := [
    { outputs := [.untyped "res"]
      kind := .fromQualString "aten::conv2d"
      attributes := []
      inputs := ["input", "weight", "bias", "stride", "padding", "dilation", "groups"] } ]
  outputs := ["res"]

/-- Source text of the pattern:
```
graph(%input, %weight, %bias, %stride:int[], %padding:int[], %dilation:int[], %groups:int):
    %output_min_max : None = prim::Constant()
    %packed_weight_bias = vulkan_prepack::conv2d_clamp_prepack(
        %weight, %bias, %stride, %padding, %dilation, %groups,
        %output_min_max, %output_min_max)
    %res = vulkan_prepack::conv2d_clamp_run(%input, %packed_weight_bias)
    return (%res)
```
-/
def insertPrePackedConv2dOp.prepacked_ops_conv2d_pattern : Graph where
  inputs := [.untyped "input", .untyped "weight", .untyped "bias", .typed "stride" "int[]",
    .typed "padding" "int[]", .typed "dilation" "int[]", .typed "groups" "int"]
  nodes := [
    { outputs := [.typed "output_min_max" "None"]
      kind := .fromQualString "prim::Constant"
      attributes := []
      inputs := [] },
    { outputs := [.untyped "packed_weight_bias"]
      kind := .fromQualString "vulkan_prepack::conv2d_clamp_prepack"
      attributes := []
      inputs := ["weight", "bias", "stride", "padding", "dilation", "groups",
        "output_min_max", "output_min_max"] },
    { outputs := [.untyped "res"]
      kind := .fromQualString "vulkan_prepack::conv2d_clamp_run"
      attributes := []
      inputs := ["input", "packed_weight_bias"] } ]
  outputs := ["res"]

/-- The pairs `{{"output_min_max", "res"}, {"packed_weight_bias", "res"}, {"res", "res"}}`. -/
def insertPrePackedConv2dOp.value_mappings : List (String × String) :=
  [("output_min_max", "res"), ("packed_weight_bias", "res"), ("res", "res")]

/-- Source text of the pattern:
```
graph(%input, %weight, %bias, %stride:int[], %padding:int[], %dilation:int[],
    %output_padding:int[], %groups:int):
  %res = aten::conv_transpose2d(%input, %weight, %bias, %stride, %padding, %output_padding, %groups, %dilation)
  return (%res)
```
-/
def insertPrePackedConv2dOp.conv_2d_transpose_pattern : Graph where
  inputs := [.untyped "input", .untyped "weight", .untyped "bias", .typed "stride" "int[]",
    .typed "padding" "int[]", .typed "dilation" "int[]", .typed "output_padding" "int[]",
    .typed "groups" "int"]
  nodes := [
    { outputs := [.untyped "res"]
      kind := .fromQualString "aten::conv_transpose2d"
      attributes := []
      inputs := ["input", "weight", "bias", "stride", "padding", "output_padding",
        "groups", "dilation"] } ]
  outputs := ["res"]

/-- Source text of the pattern:
```
graph(%input, %weight, %bias, %stride:int[], %padding:int[], %dilation:int[], %output_padding:int[], %groups:int):
    %output_min_max : None = prim::Constant()
    %packed_weight_bias = vulkan_prepack::conv2d_transpose_clamp_prepack(
        %weight, %bias, %stride, %padding, %output_padding, %dilation, %groups,
        %output_min_max, %output_min_max)
    %res = vulkan_prepack::conv2d_transpose_clamp_run(%input, %packed_weight_bias)
    return (%res)
```
-/
def insertPrePackedConv2dOp.prepacked_ops_conv2d_transpose_pattern : Graph where
  inputs := [.untyped "input", .untyped "weight", .untyped "bias", .typed "stride" "int[]",
    .typed "padding" "int[]", .typed "dilation" "int[]", .typed "output_padding" "int[]",
    .typed "groups" "int"]
  nodes := [
    { outputs := [.typed "output_min_max" "None"]
      kind := .fromQualString "prim::Constant"
      attributes := []
      inputs := [] },
    { outputs := [.untyped "packed_weight_bias"]
      kind := .fromQualString "vulkan_prepack::conv2d_transpose_clamp_prepack"
      attributes := []
      inputs := ["weight", "bias", "stride", "padding", "output_padding", "dilation",
        "groups", "output_min_max", "output_min_max"] },
    { outputs := [.untyped "res"]
      kind := .fromQualString "vulkan_prepack::conv2d_transpose_clamp_run"
      attributes := []
      inputs := ["input", "packed_weight_bias"] } ]
  outputs := ["res"]

/-! ## The pattern graphs of `fuseHardtanhWithPackedOps` -/

/-- The placeholders
`%input, %weight, %bias, %stride:int[], %padding:int[], %dilation:int[], %groups:int,
%output_min, %output_max, %dummy_min_max` that the three hardtanh patterns declare. -/
def fuseHardtanhWithPackedOps.placeholders : List Value :=
  [.untyped "input", .untyped "weight", .untyped "bias", .typed "stride" "int[]",
    .typed "padding" "int[]", .typed "dilation" "int[]", .typed "groups" "int",
    .untyped "output_min", .untyped "output_max", .untyped "dummy_min_max"]

/-- Source text of the pattern:
```
graph(%input, %weight, %bias, %stride:int[], %padding:int[],
      %dilation:int[], %groups:int, %output_min, %output_max, %dummy_min_max):
    %packed_weight_bias = vulkan_prepack::conv2d_clamp_prepack(
        %weight, %bias, %stride, %padding, %dilation, %groups,
        %dummy_min_max, %dummy_min_max)
    %conv2d_res = vulkan_prepack::conv2d_clamp_run(%input, %packed_weight_bias)
    %res = aten::hardtanh(%conv2d_res, %output_min, %output_max)
    return (%res)
```
-/
def fuseHardtanhWithPackedOps.conv2d_prepack_run_hardtanh : Graph where
  inputs := fuseHardtanhWithPackedOps.placeholders
  nodes := [
    { outputs := [.untyped "packed_weight_bias"]
      kind := .fromQualString "vulkan_prepack::conv2d_clamp_prepack"
      attributes := []
      inputs := ["weight", "bias", "stride", "padding", "dilation", "groups",
        "dummy_min_max", "dummy_min_max"] },
    { outputs := [.untyped "conv2d_res"]
      kind := .fromQualString "vulkan_prepack::conv2d_clamp_run"
      attributes := []
      inputs := ["input", "packed_weight_bias"] },
    { outputs := [.untyped "res"]
      kind := .fromQualString "aten::hardtanh"
      attributes := []
      inputs := ["conv2d_res", "output_min", "output_max"] } ]
  outputs := ["res"]

/-- Source text of the pattern:
```
graph(%input, %weight, %bias, %stride:int[], %padding:int[],
      %dilation:int[], %groups:int, %output_min, %output_max, %dummy_min_max):
    %packed_weight_bias = vulkan_prepack::conv2d_clamp_prepack(
        %weight, %bias, %stride, %padding, %dilation, %groups,
        %dummy_min_max, %dummy_min_max)
    %conv2d_res = vulkan_prepack::conv2d_clamp_run(%input, %packed_weight_bias)
    %res = aten::hardtanh_(%conv2d_res, %output_min, %output_max)
    return (%res)
```
-/
def fuseHardtanhWithPackedOps.conv2d_prepack_run_hardtanh_inplace : Graph where
  inputs := fuseHardtanhWithPackedOps.placeholders
  nodes := [
    { outputs := [.untyped "packed_weight_bias"]
      kind := .fromQualString "vulkan_prepack::conv2d_clamp_prepack"
      attributes := []
      inputs := ["weight", "bias", "stride", "padding", "dilation", "groups",
        "dummy_min_max", "dummy_min_max"] },
    { outputs := [.untyped "conv2d_res"]
      kind := .fromQualString "vulkan_prepack::conv2d_clamp_run"
      attributes := []
      inputs := ["input", "packed_weight_bias"] },
    { outputs := [.untyped "res"]
      kind := .fromQualString "aten::hardtanh_"
      attributes := []
      inputs := ["conv2d_res", "output_min", "output_max"] } ]
  outputs := ["res"]

/-- Source text of the pattern:
```
graph(%input, %weight, %bias, %stride:int[], %padding:int[],
      %dilation:int[], %groups:int, %output_min, %output_max, %dummy_min_max):
    %packed_weight_bias : __torch__.torch.classes.vulkan.Conv2dOpContext = vulkan_prepack::conv2d_clamp_prepack(
        %weight, %bias, %stride, %padding, %dilation, %groups,
        %output_min, %output_max)
    %res = vulkan_prepack::conv2d_clamp_run(%input, %packed_weight_bias)
    return (%res)
```
-/
def fuseHardtanhWithPackedOps.conv2d_prepack_run_hardtanh_fused : Graph where
  inputs := fuseHardtanhWithPackedOps.placeholders
  nodes := [
    { outputs := [.typed "packed_weight_bias" "__torch__.torch.classes.vulkan.Conv2dOpContext"]
      kind := .fromQualString "vulkan_prepack::conv2d_clamp_prepack"
      attributes := []
      inputs := ["weight", "bias", "stride", "padding", "dilation", "groups",
        "output_min", "output_max"] },
    { outputs := [.untyped "res"]
      kind := .fromQualString "vulkan_prepack::conv2d_clamp_run"
      attributes := []
      inputs := ["input", "packed_weight_bias"] } ]
  outputs := ["res"]

/-- The pairs `{{"packed_weight_bias", "packed_weight_bias"}, {"res", "res"}}`. -/
def fuseHardtanhWithPackedOps.value_mappings : List (String × String) :=
  [("packed_weight_bias", "packed_weight_bias"), ("res", "res")]

/-! ## The pattern graphs of `fuseReluWithPackedOps` -/

/-- The placeholders
`%input, %weight, %bias, %stride:int[], %padding:int[], %dilation:int[], %groups:int,
%dummy_min_max` that the three relu patterns declare. -/
def fuseReluWithPackedOps.placeholders : List Value :=
  [.untyped "input", .untyped "weight", .untyped "bias", .typed "stride" "int[]",
    .typed "padding" "int[]", .typed "dilation" "int[]", .typed "groups" "int",
    .untyped "dummy_min_max"]

/-- Source text of the pattern:
```
graph(%input, %weight, %bias, %stride:int[], %padding:int[],
      %dilation:int[], %groups:int, %dummy_min_max):
    %packed_weight_bias = vulkan_prepack::conv2d_clamp_prepack(
        %weight, %bias, %stride, %padding, %dilation, %groups,
        %dummy_min_max, %dummy_min_max)
    %conv2d_res = vulkan_prepack::conv2d_clamp_run(%input, %packed_weight_bias)
    %res = aten::relu(%conv2d_res)
    return (%res)
```
-/
def fuseReluWithPackedOps.conv2d_prepack_run_relu : Graph where
  inputs := fuseReluWithPackedOps.placeholders
  nodes := [
    { outputs := [.untyped "packed_weight_bias"]
      kind := .fromQualString "vulkan_prepack::conv2d_clamp_prepack"
      attributes := []
      inputs := ["weight", "bias", "stride", "padding", "dilation", "groups",
        "dummy_min_max", "dummy_min_max"] },
    { outputs := [.untyped "conv2d_res"]
      kind := .fromQualString "vulkan_prepack::conv2d_clamp_run"
      attributes := []
      inputs := ["input", "packed_weight_bias"] },
    { outputs := [.untyped "res"]
      kind := .fromQualString "aten::relu"
      attributes := []
      inputs := ["conv2d_res"] } ]
  outputs := ["res"]

/-- Source text of the pattern:
```
graph(%input, %weight, %bias, %stride:int[], %padding:int[],
      %dilation:int[], %groups:int, %dummy_min_max):
    %packed_weight_bias = vulkan_prepack::conv2d_clamp_prepack(
        %weight, %bias, %stride, %padding, %dilation, %groups,
        %dummy_min_max, %dummy_min_max)
    %conv2d_res = vulkan_prepack::conv2d_clamp_run(%input, %packed_weight_bias)
    %res = aten::relu_(%conv2d_res)
    return (%res)
```
-/
def fuseReluWithPackedOps.conv2d_prepack_run_relu_inplace : Graph where
  inputs := fuseReluWithPackedOps.placeholders
  nodes := [
    { outputs := [.untyped "packed_weight_bias"]
      kind := .fromQualString "vulkan_prepack::conv2d_clamp_prepack"
      attributes := []
      inputs := ["weight", "bias", "stride", "padding", "dilation", "groups",
        "dummy_min_max", "dummy_min_max"] },
    { outputs := [.untyped "conv2d_res"]
      kind := .fromQualString "vulkan_prepack::conv2d_clamp_run"
      attributes := []
      inputs := ["input", "packed_weight_bias"] },
    { outputs := [.untyped "res"]
      kind := .fromQualString "aten::relu_"
      attributes := []
      inputs := ["conv2d_res"] } ]
  outputs := ["res"]

/-- Source text of the pattern:
```
graph(%input, %weight, %bias, %stride:int[], %padding:int[],
      %dilation:int[], %groups:int, %dummy_min_max):
    %output_min: float = prim::Constant[value=0.0]()
    %output_max: None = prim::Constant()
    %packed_weight_bias : __torch__.torch.classes.vulkan.Conv2dOpContext = vulkan_prepack::conv2d_clamp_prepack(
        %weight, %bias, %stride, %padding, %dilation, %groups,
        %output_min, %output_max)
    %res = vulkan_prepack::conv2d_clamp_run(%input, %packed_weight_bias)
    return (%res)
```
-/
def fuseReluWithPackedOps.conv2d_prepack_run_relu_fused : Graph where
  inputs := fuseReluWithPackedOps.placeholders
  nodes := [
    { outputs := [.typed "output_min" "float"]
      kind := .fromQualString "prim::Constant"
      attributes := [("value", "0.0")]
      inputs := [] },
    { outputs := [.typed "output_max" "None"]
      kind := .fromQualString "prim::Constant"
      attributes := []
      inputs := [] },
    { outputs := [.typed "packed_weight_bias" "__torch__.torch.classes.vulkan.Conv2dOpContext"]
      kind := .fromQualString "vulkan_prepack::conv2d_clamp_prepack"
      attributes := []
      inputs := ["weight", "bias", "stride", "padding", "dilation", "groups",
        "output_min", "output_max"] },
    { outputs := [.untyped "res"]
      kind := .fromQualString "vulkan_prepack::conv2d_clamp_run"
      attributes := []
      inputs := ["input", "packed_weight_bias"] } ]
  outputs := ["res"]

/-- The pairs `{{"output_min", "packed_weight_bias"}, {"output_max", "packed_weight_bias"},
{"packed_weight_bias", "packed_weight_bias"}, {"res", "res"}}`. -/
def fuseReluWithPackedOps.value_mappings : List (String × String) :=
  [("output_min", "packed_weight_bias"), ("output_max", "packed_weight_bias"),
    ("packed_weight_bias", "packed_weight_bias"), ("res", "res")]

/-! ## The passes -/

/-- The filter of the `prim::CallFunction` rule: the function bound to `%linear` is
named `linear`. -/
def insertPrePackedLinearOp.filter (getFuncName : ValuePtr → Except Error String) :
    MatchFilter := fun match_ vmap => do
  let match_vmap := match_.values_map
  let linear_value ← mapAt match_vmap (← mapAt vmap "linear")
  let func_name ← getFuncName linear_value
  pure (func_name == "linear")

/-- The rewriter of the `prim::CallFunction` rule. -/
def insertPrePackedLinearOp.linear_call_fn_rewriter : SubgraphRewriter :=
  SubgraphRewriter.new.RegisterRewritePattern
    insertPrePackedLinearOp.linear_before_inline
    insertPrePackedLinearOp.prepacked_ops_pattern_before_inline
    insertPrePackedLinearOp.value_mappings

/-- The rewriter of the `aten::linear` rule. -/
def insertPrePackedLinearOp.linear_rewriter : SubgraphRewriter :=
  SubgraphRewriter.new.RegisterRewritePattern
    insertPrePackedLinearOp.linear_pattern
    insertPrePackedLinearOp.prepacked_ops_pattern
    insertPrePackedLinearOp.value_mappings

/-- Embedding of `insertPrePackedLinearOp`. -/
def insertPrePackedLinearOp {σ : Type} (ext : Collaborators σ) (graph : Graph) :
    Pass σ Graph := do
  -- fuse decomposed linear into aten::linear
  let graph ← ext.FuseLinear graph
  let graph ← ext.runOnGraph insertPrePackedLinearOp.linear_call_fn_rewriter
    (some (insertPrePackedLinearOp.filter ext.getFuncName)) graph
  let graph ← ext.runOnGraph insertPrePackedLinearOp.linear_rewriter none graph
  pure graph

/-- The rewriter of the `aten::conv2d` rule. -/
def insertPrePackedConv2dOp.rewriter : SubgraphRewriter :=
  SubgraphRewriter.new.RegisterRewritePattern
    insertPrePackedConv2dOp.conv_2d_pattern
    insertPrePackedConv2dOp.prepacked_ops_conv2d_pattern
    insertPrePackedConv2dOp.value_mappings

/-- The rewriter of the `aten::conv_transpose2d` rule. -/
def insertPrePackedConv2dOp.transpose_rewriter : SubgraphRewriter :=
  SubgraphRewriter.new.RegisterRewritePattern
    insertPrePackedConv2dOp.conv_2d_transpose_pattern
    insertPrePackedConv2dOp.prepacked_ops_conv2d_transpose_pattern
    insertPrePackedConv2dOp.value_mappings

/-- Embedding of `insertPrePackedConv2dOp`. -/
def insertPrePackedConv2dOp {σ : Type} (ext : Collaborators σ) (graph : Graph) :
    Pass σ Graph := do
  let graph ← ext.replaceConvolutionWithAtenConv graph
  let graph ← ext.runOnGraph insertPrePackedConv2dOp.rewriter none graph
  let graph ← ext.runOnGraph insertPrePackedConv2dOp.transpose_rewriter none graph
  pure graph

/-- The rewriter of `fuseHardtanhWithPackedOps`, with its two rules. -/
def fuseHardtanhWithPackedOps.rewriter : SubgraphRewriter :=
  (SubgraphRewriter.new.RegisterRewritePattern
    fuseHardtanhWithPackedOps.conv2d_prepack_run_hardtanh
    fuseHardtanhWithPackedOps.conv2d_prepack_run_hardtanh_fused
    fuseHardtanhWithPackedOps.value_mappings).RegisterRewritePattern
    fuseHardtanhWithPackedOps.conv2d_prepack_run_hardtanh_inplace
    fuseHardtanhWithPackedOps.conv2d_prepack_run_hardtanh_fused
    fuseHardtanhWithPackedOps.value_mappings

/-- Embedding of `fuseHardtanhWithPackedOps`. -/
def fuseHardtanhWithPackedOps {σ : Type} (ext : Collaborators σ) (graph : Graph) :
    Pass σ Graph :=
  ext.runOnGraph fuseHardtanhWithPackedOps.rewriter (some ext.isClampFusable) graph

/-- The rewriter of `fuseReluWithPackedOps`, with its two rules. -/
def fuseReluWithPackedOps.rewriter : SubgraphRewriter :=
  (SubgraphRewriter.new.RegisterRewritePattern
    fuseReluWithPackedOps.conv2d_prepack_run_relu
    fuseReluWithPackedOps.conv2d_prepack_run_relu_fused
    fuseReluWithPackedOps.value_mappings).RegisterRewritePattern
    fuseReluWithPackedOps.conv2d_prepack_run_relu_inplace
    fuseReluWithPackedOps.conv2d_prepack_run_relu_fused
    fuseReluWithPackedOps.value_mappings

/-- Embedding of `fuseReluWithPackedOps`. -/
def fuseReluWithPackedOps {σ : Type} (ext : Collaborators σ) (graph : Graph) :
    Pass σ Graph :=
  ext.runOnGraph fuseReluWithPackedOps.rewriter (some ext.isClampFusable) graph

/-- Embedding of `vulkanInsertPrePackedOps(std::shared_ptr<Graph>&)`. -/
def vulkanInsertPrePackedOps_graph {σ : Type} (ext : Collaborators σ) (graph : Graph) :
    Pass σ Graph := do
  let graph ← insertPrePackedLinearOp ext graph
  let graph ← insertPrePackedConv2dOp ext graph
  pure graph

mutual
/-- Embedding of `vulkanInsertPrePackedOps(script::Module&)`: the loop over the
methods, then the loop over `children()`. -/
def vulkanInsertPrePackedOps_module {σ : Type} (ext : Collaborators σ) :
    Module → Pass σ Module
  | .mk methods children attributes => do
      let methods ← forEachMethod (vulkanInsertPrePackedOps_graph ext) methods
      let children ← vulkanInsertPrePackedOps_children ext children
      pure (.mk methods children attributes)
/-- The loop `for (script::Module m : module.children())` of
`vulkanInsertPrePackedOps(script::Module&)`. -/
def vulkanInsertPrePackedOps_children {σ : Type} (ext : Collaborators σ) :
    List Module → Pass σ (List Module)
  | [] => pure []
  | m :: rest => do
      let m ← vulkanInsertPrePackedOps_module ext m
      let rest ← vulkanInsertPrePackedOps_children ext rest
      pure (m :: rest)
end

/-- Embedding of `vulkanFusePrePackedConvWithClamp`. -/
def vulkanFusePrePackedConvWithClamp {σ : Type} (ext : Collaborators σ) (module : Module) :
    Pass σ Module := do
  let graph := (← module.get_method "forward").graph
  let graph ← fuseReluWithPackedOps ext graph
  let graph ← fuseHardtanhWithPackedOps ext graph
  pure (module.with_method_graph "forward" graph)

/-- The node predicate `filter_fn` of `vulkanFoldPrePackingOps`. -/
def vulkanFoldPrePackingOps.filter_fn : PrePackingOpsFilterFn := fun n =>
  (n.kind == Symbol.fromQualString "vulkan_prepack::conv2d_clamp_prepack") ||
  (n.kind == Symbol.fromQualString "vulkan_prepack::linear_prepack") ||
  (n.kind == Symbol.fromQualString "vulkan_prepack::conv2d_transpose_clamp_prepack")

/-- Embedding of `vulkanFoldPrePackingOps`. -/
def vulkanFoldPrePackingOps {σ : Type} (ext : Collaborators σ) (m : Module) :
    Pass σ Module :=
  ext.PrePackingOpsFolder m vulkanFoldPrePackingOps.filter_fn "prepack_folding"

/-- Embedding of `vulkanRemoveMutation`. -/
def vulkanRemoveMutation {σ : Type} (ext : Collaborators σ) (module : Module) :
    Pass σ Module := do
  let graph := (← module.get_method "forward").graph
  let graph ← ext.RemoveTensorMutation graph
  pure (module.with_method_graph "forward" graph)

/-- Embedding of `vulkanRunCanonicalOptimizations`. -/
def vulkanRunCanonicalOptimizations {σ : Type} (ext : Collaborators σ) (module : Module) :
    Pass σ Module := do
  let _graph := (← module.get_method "forward").graph
  let methods ← forEachMethod (fun graph => ext.runOptimization graph false)
    module.get_methods
  pure (module.with_methods methods)

/-- Embedding of `vulkanOptimizeForMobile`. -/
def vulkanOptimizeForMobile {σ : Type} (ext : Collaborators σ) (m : Module)
    (preserved_methods : List String) : Pass σ Module := do
  let cloned_module ← ext.clone m
  let cloned_module ← ext.eval cloned_module
  let cloned_module ← ext.FoldConvBatchNorm cloned_module
  let cloned_module ← vulkanInsertPrePackedOps_module ext cloned_module
  let cloned_module ← ext.freeze_module cloned_module preserved_methods
  let cloned_module ← vulkanFusePrePackedConvWithClamp ext cloned_module
  let cloned_module ← vulkanFoldPrePackingOps ext cloned_module
  let cloned_module ← ext.removeDropout cloned_module
  let cloned_module ← vulkanRemoveMutation ext cloned_module
  -- remove duplicated constants
  let cloned_module ← vulkanRunCanonicalOptimizations ext cloned_module
  let cloned_module := cloned_module.register_attribute
    "optimized_for_vulkan" BoolType.get (.bool true)
  pure cloned_module

end WithVulkan

/-! ## The build without `USE_VULKAN` -/

namespace WithoutVulkan

/-- Embedding of `vulkanInsertPrePackedOps(std::shared_ptr<Graph>&)`. -/
def vulkanInsertPrePackedOps_graph {σ : Type} (graph : Graph) : Pass σ Graph := do
  TORCH_INTERNAL_ASSERT false "Vulkan is not enabled. Please build with USE_VULKAN=1"
  pure graph

/-- Embedding of `vulkanInsertPrePackedOps(script::Module&)`. -/
def vulkanInsertPrePackedOps_module {σ : Type} (module : Module) : Pass σ Module := do
  TORCH_INTERNAL_ASSERT false "Vulkan is not enabled. Please build with USE_VULKAN=1"
  pure module

/-- Embedding of `vulkanFusePrePackedConvWithClamp`. -/
def vulkanFusePrePackedConvWithClamp {σ : Type} (module : Module) : Pass σ Module := do
  TORCH_INTERNAL_ASSERT false "Vulkan is not enabled. Please build with USE_VULKAN=1"
  pure module

/-- Embedding of `vulkanFoldPrePackingOps`. -/
def vulkanFoldPrePackingOps {σ : Type} (m : Module) : Pass σ Module := do
  TORCH_INTERNAL_ASSERT false "Vulkan is not enabled. Please build with USE_VULKAN=1"
  pure m

/-- Embedding of `vulkanOptimizeForMobile`. -/
def vulkanOptimizeForMobile {σ : Type} (module : Module)
    (_preserved_methods : List String) : Pass σ Module := do
  TORCH_INTERNAL_ASSERT false
    ("Mobile optimizaiton only available with Vulkan at the moment. " ++
      "Vulkan is not enabled. Please build with USE_VULKAN=1")
  pure module

end WithoutVulkan

/-! ## Observing the calls to the collaborators -/

/-- One call to a collaborator, with the arguments it was given. -/
inductive Event where
  | FuseLinear (graph : Graph)
  | replaceConvolutionWithAtenConv (graph : Graph)
  | runOnGraph (rewriter : SubgraphRewriter) (filter : Option MatchFilter) (graph : Graph)
  | clone (m : Module)
  | eval (m : Module)
  | FoldConvBatchNorm (m : Module)
  | freeze_module (m : Module) (preserved_methods : List String)
  | PrePackingOpsFolder (m : Module) (filter_fn : PrePackingOpsFilterFn) (name : String)
  | removeDropout (m : Module)
  | RemoveTensorMutation (graph : Graph)
  | runOptimization (graph : Graph) (unroll : Bool)

/-- The graph a graph-level call was given. -/
def Event.graph? : Event → Option Graph
  | .FuseLinear g => some g
  | .replaceConvolutionWithAtenConv g => some g
  | .runOnGraph _ _ g => some g
  | .RemoveTensorMutation g => some g
  | .runOptimization g _ => some g
  | _ => none

/-- The name of the collaborator that was called. -/
def Event.callee : Event → String
  | .FuseLinear _ => "FuseLinear"
  | .replaceConvolutionWithAtenConv _ => "replaceConvolutionWithAtenConv"
  | .runOnGraph _ _ _ => "runOnGraph"
  | .clone _ => "clone"
  | .eval _ => "eval"
  | .FoldConvBatchNorm _ => "FoldConvBatchNorm"
  | .freeze_module _ _ => "freeze_module"
  | .PrePackingOpsFolder _ _ _ => "PrePackingOpsFolder"
  | .removeDropout _ => "removeDropout"
  | .RemoveTensorMutation _ => "RemoveTensorMutation"
  | .runOptimization _ _ => "runOptimization"

/-- The rules a `runOnGraph` call was given. -/
def Event.rules : Event → List RewritePatternDescr
  | .runOnGraph r _ _ => r.patterns
  | _ => []

/-- Collaborators that always return: what each computes from its arguments. -/
structure PassFunctions where
  FuseLinear : Graph → Graph
  replaceConvolutionWithAtenConv : Graph → Graph
  runOnGraph : SubgraphRewriter → Option MatchFilter → Graph → Graph
  getFuncName : ValuePtr → Except Error String
  isClampFusable : MatchFilter
  clone : Module → Module
  eval : Module → Module
  FoldConvBatchNorm : Module → Module
  freeze_module : Module → List String → Module
  PrePackingOpsFolder : Module → PrePackingOpsFilterFn → String → Module
  removeDropout : Module → Module
  RemoveTensorMutation : Graph → Graph
  runOptimization : Graph → Bool → Graph

/-- Append the call to the log and return the value. -/
def record {α : Type} (e : Event) (a : α) : Pass (List Event) α :=
  fun log => (.ok a, log ++ [e])

/-- The collaborators that compute what `p` says and log every call, in call order. -/
def PassFunctions.traced (p : PassFunctions) : Collaborators (List Event) where
  FuseLinear g := record (.FuseLinear g) (p.FuseLinear g)
  replaceConvolutionWithAtenConv g :=
    record (.replaceConvolutionWithAtenConv g) (p.replaceConvolutionWithAtenConv g)
  runOnGraph r f g := record (.runOnGraph r f g) (p.runOnGraph r f g)
  getFuncName := p.getFuncName
  isClampFusable := p.isClampFusable
  clone m := record (.clone m) (p.clone m)
  eval m := record (.eval m) (p.eval m)
  FoldConvBatchNorm m := record (.FoldConvBatchNorm m) (p.FoldConvBatchNorm m)
  freeze_module m ps := record (.freeze_module m ps) (p.freeze_module m ps)
  PrePackingOpsFolder m f n := record (.PrePackingOpsFolder m f n) (p.PrePackingOpsFolder m f n)
  removeDropout m := record (.removeDropout m) (p.removeDropout m)
  RemoveTensorMutation g := record (.RemoveTensorMutation g) (p.RemoveTensorMutation g)
  runOptimization g u := record (.runOptimization g u) (p.runOptimization g u)

/-- Collaborators that leave every graph and module as it is. -/
def PassFunctions.id : PassFunctions where
  FuseLinear g := g
  replaceConvolutionWithAtenConv g := g
  runOnGraph _ _ g := g
  getFuncName _ := .ok "linear"
  isClampFusable _ _ := .ok true
  clone m := m
  eval m := m
  FoldConvBatchNorm m := m
  freeze_module m _ := m
  PrePackingOpsFolder m _ _ := m
  removeDropout m := m
  RemoveTensorMutation g := g
  runOptimization g _ := g

/-- What graph-level insertion computes: the six collaborator calls of
`insertPrePackedLinearOp` then `insertPrePackedConv2dOp`, composed. -/
def PassFunctions.insertGraph (p : PassFunctions) (g : Graph) : Graph :=
  let g1 := p.FuseLinear g
  let g2 := p.runOnGraph WithVulkan.insertPrePackedLinearOp.linear_call_fn_rewriter
    (some (WithVulkan.insertPrePackedLinearOp.filter p.getFuncName)) g1
  let g3 := p.runOnGraph WithVulkan.insertPrePackedLinearOp.linear_rewriter none g2
  let g4 := p.replaceConvolutionWithAtenConv g3
  let g5 := p.runOnGraph WithVulkan.insertPrePackedConv2dOp.rewriter none g4
  p.runOnGraph WithVulkan.insertPrePackedConv2dOp.transpose_rewriter none g5

/-- The calls one graph-level insertion on `g` makes, in order. -/
def PassFunctions.insertGraphEvents (p : PassFunctions) (g : Graph) : List Event :=
  let g1 := p.FuseLinear g
  let g2 := p.runOnGraph WithVulkan.insertPrePackedLinearOp.linear_call_fn_rewriter
    (some (WithVulkan.insertPrePackedLinearOp.filter p.getFuncName)) g1
  let g3 := p.runOnGraph WithVulkan.insertPrePackedLinearOp.linear_rewriter none g2
  let g4 := p.replaceConvolutionWithAtenConv g3
  let g5 := p.runOnGraph WithVulkan.insertPrePackedConv2dOp.rewriter none g4
  [ .FuseLinear g,
    .runOnGraph WithVulkan.insertPrePackedLinearOp.linear_call_fn_rewriter
      (some (WithVulkan.insertPrePackedLinearOp.filter p.getFuncName)) g1,
    .runOnGraph WithVulkan.insertPrePackedLinearOp.linear_rewriter none g2,
    .replaceConvolutionWithAtenConv g3,
    .runOnGraph WithVulkan.insertPrePackedConv2dOp.rewriter none g4,
    .runOnGraph WithVulkan.insertPrePackedConv2dOp.transpose_rewriter none g5 ]

/-! ## Positions in a module tree -/

/-- A method graph of a module tree with its position: the child indices leading
from the root to the owning module, the index of the method there, the graph. -/
structure Site where
  path : List Nat
  index : Nat
  graph : Graph
deriving DecidableEq, Repr

/-- The site seen from the parent, the owning module being below child `i`. -/
def Site.below (i : Nat) (s : Site) : Site := { s with path := i :: s.path }

/-- Paths in preorder: a path comes before its extensions, and otherwise the
smaller child index at the first difference comes first. -/
def pathBefore : List Nat → List Nat → Bool
  | [], [] => false
  | [], _ :: _ => true
  | _ :: _, [] => false
  | i :: p, j :: q => decide (i < j) || (i == j && pathBefore p q)

/-- Preorder on positions: by path, and on one module by method index. -/
def Site.before (s t : Site) : Bool :=
  pathBefore s.path t.path || (s.path == t.path && decide (s.index < t.index))

/-- The sites of the methods of one module, numbered from `j`. -/
def methodSites (j : Nat) : List Method → List Site
  | [] => []
  | f :: fs => ⟨[], j, f.graph⟩ :: methodSites (j + 1) fs

mutual
/-- The sites of a module tree: those of the module itself, then those below each
child in turn. -/
def Module.sites : Module → List Site
  | .mk methods children _ => methodSites 0 methods ++ childrenSites 0 children
/-- The sites below the children of a module, the first child having index `i`. -/
def childrenSites : Nat → List Module → List Site
  | _, [] => []
  | i, c :: cs => (Module.sites c).map (Site.below i) ++ childrenSites (i + 1) cs
end

/-- The sub-module a path of child indices leads to. -/
def Module.descend : Module → List Nat → Option Module
  | m, [] => some m
  | m, i :: p =>
    match m.children[i]? with
    | some c => c.descend p
    | none => none

/-- The graphs of every method of the module and of its transitive sub-modules. -/
def Module.allGraphs (m : Module) : List Graph := m.sites.map (·.graph)

mutual
/-- The module tree with `f` applied to the graph of every method. -/
def Module.mapGraphs (f : Graph → Graph) : Module → Module
  | .mk methods children attributes =>
    .mk (methods.map fun g => { g with graph := f g.graph }) (mapGraphsList f children)
      attributes
/-- The list of module trees with `f` applied to the graph of every method. -/
def mapGraphsList (f : Graph → Graph) : List Module → List Module
  | [] => []
  | c :: cs => Module.mapGraphs f c :: mapGraphsList f cs
end

/-! ## The pipeline as the design document lists it -/

/-- The stages applied to the clone, named as in the source. -/
inductive Stage where
  | eval
  | FoldConvBatchNorm
  | vulkanInsertPrePackedOps
  | freeze_module
  | vulkanFusePrePackedConvWithClamp
  | vulkanFoldPrePackingOps
  | removeDropout
  | vulkanRemoveMutation
  | vulkanRunCanonicalOptimizations
  | register_optimized_for_vulkan
deriving DecidableEq, Repr

/-- What a stage does to the module. -/
def Stage.run {σ : Type} (ext : Collaborators σ) (preserved_methods : List String) :
    Stage → Module → Pass σ Module
  | .eval, c => ext.eval c
  | .FoldConvBatchNorm, c => ext.FoldConvBatchNorm c
  | .vulkanInsertPrePackedOps, c => WithVulkan.vulkanInsertPrePackedOps_module ext c
  | .freeze_module, c => ext.freeze_module c preserved_methods
  | .vulkanFusePrePackedConvWithClamp, c => WithVulkan.vulkanFusePrePackedConvWithClamp ext c
  | .vulkanFoldPrePackingOps, c => WithVulkan.vulkanFoldPrePackingOps ext c
  | .removeDropout, c => ext.removeDropout c
  | .vulkanRemoveMutation, c => WithVulkan.vulkanRemoveMutation ext c
  | .vulkanRunCanonicalOptimizations, c => WithVulkan.vulkanRunCanonicalOptimizations ext c
  | .register_optimized_for_vulkan, c =>
    Pass.pure (c.register_attribute "optimized_for_vulkan" BoolType.get (.bool true))

/-- The stages in the order the design document gives. -/
def Stage.pipeline : List Stage :=
  [.eval, .FoldConvBatchNorm, .vulkanInsertPrePackedOps, .freeze_module,
    .vulkanFusePrePackedConvWithClamp, .vulkanFoldPrePackingOps, .removeDropout,
    .vulkanRemoveMutation, .vulkanRunCanonicalOptimizations, .register_optimized_for_vulkan]

/-- Apply the stages one after the other, each to the module the previous left. -/
def Stage.runAll {σ : Type} (ext : Collaborators σ) (preserved_methods : List String) :
    List Stage → Module → Pass σ Module
  | [], c => Pass.pure c
  | st :: rest, c => Pass.bind (st.run ext preserved_methods c)
      (Stage.runAll ext preserved_methods rest)

/-! ## The rules registered in this file -/

/-- The insertion rules, in the order they are run. -/
def insertionRules : List RewritePatternDescr :=
  WithVulkan.insertPrePackedLinearOp.linear_call_fn_rewriter.patterns ++
  WithVulkan.insertPrePackedLinearOp.linear_rewriter.patterns ++
  WithVulkan.insertPrePackedConv2dOp.rewriter.patterns ++
  WithVulkan.insertPrePackedConv2dOp.transpose_rewriter.patterns

/-- The activation-fusion rules, in the order they are run. -/
def fusionRules : List RewritePatternDescr :=
  WithVulkan.fuseReluWithPackedOps.rewriter.patterns ++
  WithVulkan.fuseHardtanhWithPackedOps.rewriter.patterns

/-- Every rewrite rule registered in this file. -/
def allRules : List RewritePatternDescr := insertionRules ++ fusionRules

/-- The operator kinds a "before" pattern of an insertion rule needs. -/
def insertionTriggerKinds : List Symbol :=
  [.fromQualString "aten::linear", .fromQualString "prim::CallFunction",
    .fromQualString "aten::conv2d", .fromQualString "aten::conv_transpose2d"]

/-- The activation kinds a "before" pattern of a fusion rule needs. -/
def activationKinds : List Symbol :=
  [.fromQualString "aten::hardtanh", .fromQualString "aten::hardtanh_",
    .fromQualString "aten::relu", .fromQualString "aten::relu_"]

/-- What a node computes from which values: kind, input names, output names. -/
def Node.shape (n : Node) : Symbol × List String × List String :=
  (n.kind, n.inputs, n.outputs.map (·.name))

/-! ## Example module trees -/

/-- A graph with one `aten::relu` node, named by its input. -/
def exampleGraph (tag : String) : Graph where
  inputs := [.untyped tag]
  nodes := [
    { outputs := [.untyped "res"]
      kind := .fromQualString "aten::relu"
      attributes := []
      inputs := [tag] } ]
  outputs := ["res"]

/-- A module with a `forward` and a `helper` method and one child that has a
`forward` method of its own. -/
def exampleModule : Module :=
  .mk [⟨"forward", exampleGraph "x"⟩, ⟨"helper", exampleGraph "y"⟩]
    [.mk [⟨"forward", exampleGraph "z"⟩] [] []] []

/-- Collaborators whose rewriter marks the graph it was run on, by appending the
returned name `rewritten`, and that otherwise leave everything as it is. -/
def PassFunctions.marking : PassFunctions :=
  { PassFunctions.id with
    runOnGraph := fun _ _ g => { g with outputs := g.outputs ++ ["rewritten"] } }

/-- What the activation fusion computes on a graph: the relu rules, then the
hardtanh rules. -/
def PassFunctions.fuseGraph (p : PassFunctions) (g : Graph) : Graph :=
  p.runOnGraph WithVulkan.fuseHardtanhWithPackedOps.rewriter (some p.isClampFusable)
    (p.runOnGraph WithVulkan.fuseReluWithPackedOps.rewriter (some p.isClampFusable) g)

/-- The module after clone, eval, FoldConvBatchNorm and the insertion. -/
def PassFunctions.inserted (p : PassFunctions) (m : Module) : Module :=
  (p.FoldConvBatchNorm (p.eval (p.clone m))).mapGraphs p.insertGraph

/-- The module `freeze_module` returns in the pipeline. -/
def PassFunctions.frozen (p : PassFunctions) (m : Module) (preserved_methods : List String) :
    Module :=
  p.freeze_module (p.inserted m) preserved_methods

/-- The module after the activation fusion on `forward`, the prepack folding and
`removeDropout`. -/
def PassFunctions.cleaned (p : PassFunctions) (m : Module) (preserved_methods : List String)
    (forward : Method) : Module :=
  p.removeDropout (p.PrePackingOpsFolder
    ((p.frozen m preserved_methods).with_method_graph "forward" (p.fuseGraph forward.graph))
    WithVulkan.vulkanFoldPrePackingOps.filter_fn "prepack_folding")

/-- The module the pipeline returns, `forward` being the `forward` method of the
frozen module and `forward2` that of the cleaned module. -/
def PassFunctions.optimized (p : PassFunctions) (m : Module) (preserved_methods : List String)
    (forward forward2 : Method) : Module :=
  let unmutated := (p.cleaned m preserved_methods forward).with_method_graph "forward"
    (p.RemoveTensorMutation forward2.graph)
  (unmutated.with_methods
    (unmutated.get_methods.map fun f =>
      { f with graph := p.runOptimization f.graph false })).register_attribute
    "optimized_for_vulkan" BoolType.get (.bool true)

/-- The collaborator calls of the pipeline, in order. -/
def PassFunctions.optimizeEvents (p : PassFunctions) (m : Module)
    (preserved_methods : List String) (forward forward2 : Method) : List Event :=
  [.clone m, .eval (p.clone m), .FoldConvBatchNorm (p.eval (p.clone m))] ++
  ((p.FoldConvBatchNorm (p.eval (p.clone m))).sites.flatMap fun s =>
    p.insertGraphEvents s.graph) ++
  [.freeze_module (p.inserted m) preserved_methods,
    .runOnGraph WithVulkan.fuseReluWithPackedOps.rewriter (some p.isClampFusable)
      forward.graph,
    .runOnGraph WithVulkan.fuseHardtanhWithPackedOps.rewriter (some p.isClampFusable)
      (p.runOnGraph WithVulkan.fuseReluWithPackedOps.rewriter (some p.isClampFusable)
        forward.graph),
    .PrePackingOpsFolder
      ((p.frozen m preserved_methods).with_method_graph "forward"
        (p.fuseGraph forward.graph))
      WithVulkan.vulkanFoldPrePackingOps.filter_fn "prepack_folding",
    .removeDropout (p.PrePackingOpsFolder
      ((p.frozen m preserved_methods).with_method_graph "forward"
        (p.fuseGraph forward.graph))
      WithVulkan.vulkanFoldPrePackingOps.filter_fn "prepack_folding"),
    .RemoveTensorMutation forward2.graph] ++
  (((p.cleaned m preserved_methods forward).with_method_graph "forward"
    (p.RemoveTensorMutation forward2.graph)).get_methods.flatMap fun f =>
      [.runOptimization f.graph false])

/-! ## Running the passes -/

/-- A sequence that returns ran both parts, and both returned. -/
theorem Pass.bind_ok {σ α β : Type} {x : Pass σ α} {f : α → Pass σ β} {s s' : σ} {b : β}
    (h : Pass.bind x f s = (.ok b, s')) :
    ∃ a s1, x s = (.ok a, s1) ∧ f a s1 = (.ok b, s') := by
  unfold Pass.bind at h
  split at h
  · next a s1 hx => exact ⟨a, s1, hx, h⟩
  · next e s1 hx => cases h

/-- One graph-level insertion: its result and the calls it logs. -/
theorem insertGraph_traced (p : PassFunctions) (g : Graph) (log : List Event) :
    WithVulkan.vulkanInsertPrePackedOps_graph p.traced g log =
      (.ok (p.insertGraph g), log ++ p.insertGraphEvents g) := by
  simp [WithVulkan.vulkanInsertPrePackedOps_graph, WithVulkan.insertPrePackedLinearOp,
    WithVulkan.insertPrePackedConv2dOp, PassFunctions.traced, record, bind, Pass.bind,
    pure, Pass.pure, PassFunctions.insertGraph, PassFunctions.insertGraphEvents]

/-- The loop over the methods runs the graph pass on each method in turn. -/
theorem forEachMethod_traced (f : Graph → Pass (List Event) Graph) (fn : Graph → Graph)
    (ev : Graph → List Event)
    (hf : ∀ g log, f g log = (.ok (fn g), log ++ ev g)) :
    ∀ (ms : List Method) (log : List Event),
      forEachMethod f ms log =
        (.ok (ms.map fun m => { m with graph := fn m.graph }),
          log ++ ms.flatMap (fun m => ev m.graph))
  | [], log => by simp [forEachMethod, pure, Pass.pure]
  | m :: ms, log => by
    simp [forEachMethod, bind, Pass.bind, hf, forEachMethod_traced f fn ev hf ms, pure,
      Pass.pure, List.append_assoc]

/-- The graphs at the sites of a method list are the graphs of the methods. -/
theorem methodSites_flatMap (ev : Graph → List Event) :
    ∀ (j : Nat) (ms : List Method),
      (methodSites j ms).flatMap (fun s => ev s.graph) = ms.flatMap (fun m => ev m.graph)
  | _, [] => by simp [methodSites]
  | j, m :: ms => by simp [methodSites, methodSites_flatMap ev (j + 1) ms]

mutual
/-- The module-level insertion: the tree it returns and the calls it logs. -/
theorem insertModule_traced (p : PassFunctions) :
    ∀ (m : Module) (log : List Event),
      WithVulkan.vulkanInsertPrePackedOps_module p.traced m log =
        (.ok (m.mapGraphs p.insertGraph),
          log ++ m.sites.flatMap (fun s => p.insertGraphEvents s.graph))
  | .mk ms cs attrs, log => by
    simp [WithVulkan.vulkanInsertPrePackedOps_module, bind, Pass.bind,
      forEachMethod_traced _ _ _ (insertGraph_traced p), insertChildren_traced p cs 0,
      Module.mapGraphs, Module.sites, methodSites_flatMap, pure, Pass.pure,
      List.append_assoc]
/-- The loop over the children: the trees it returns and the calls it logs. -/
theorem insertChildren_traced (p : PassFunctions) :
    ∀ (cs : List Module) (i : Nat) (log : List Event),
      WithVulkan.vulkanInsertPrePackedOps_children p.traced cs log =
        (.ok (mapGraphsList p.insertGraph cs),
          log ++ (childrenSites i cs).flatMap (fun s => p.insertGraphEvents s.graph))
  | [], i, log => by
    simp [WithVulkan.vulkanInsertPrePackedOps_children, mapGraphsList, childrenSites, pure,
      Pass.pure]
  | c :: cs, i, log => by
    simp [WithVulkan.vulkanInsertPrePackedOps_children, bind, Pass.bind,
      insertModule_traced p c, insertChildren_traced p cs (i + 1), mapGraphsList,
      childrenSites, pure, Pass.pure, List.append_assoc, List.flatMap_map, Site.below]
end

/-! ## The positions of a module tree -/

/-- The sites of a method list are its methods, at the module itself. -/
theorem mem_methodSites :
    ∀ (ms : List Method) (j : Nat) (s : Site),
      s ∈ methodSites j ms ↔
        s.path = [] ∧ ∃ k f, s.index = j + k ∧ ms[k]? = some f ∧ f.graph = s.graph
  | [], j, s => by simp [methodSites]
  | m :: ms, j, s => by
    rw [methodSites, List.mem_cons, mem_methodSites ms (j + 1) s]
    constructor
    · rintro (h | ⟨hp, k, f, hk, hf, hg⟩)
      · subst h
        exact ⟨rfl, 0, m, rfl, by simp, rfl⟩
      · exact ⟨hp, k + 1, f, by omega, by simpa using hf, hg⟩
    · rintro ⟨hp, k, f, hk, hf, hg⟩
      cases k with
      | zero =>
        left
        simp at hf
        subst hf
        cases s
        simp_all
      | succ k =>
        right
        exact ⟨hp, k, f, by omega, by simpa using hf, hg⟩

mutual
/-- The sites of a tree are the methods of the modules its paths lead to. -/
theorem mem_sites :
    ∀ (m : Module) (s : Site),
      s ∈ m.sites ↔
        ∃ sub f, m.descend s.path = some sub ∧ sub.get_methods[s.index]? = some f ∧
          f.graph = s.graph
  | .mk ms cs attrs, s => by
    rw [Module.sites, List.mem_append, mem_methodSites, mem_childrenSites cs 0 s]
    constructor
    · rintro (⟨hp, k, f, hk, hf, hg⟩ | ⟨k, rest, c, hp, hc, sub, f, hd, hf, hg⟩)
      · refine ⟨.mk ms cs attrs, f, ?_, ?_, hg⟩
        · rw [hp]; rfl
        · simp only [Nat.zero_add] at hk
          rw [hk]; exact hf
      · refine ⟨sub, f, ?_, hf, hg⟩
        rw [hp]
        simp only [Module.descend, Module.children, Nat.zero_add, hc]
        exact hd
    · rintro ⟨sub, f, hd, hf, hg⟩
      cases hpath : s.path with
      | nil =>
        left
        rw [hpath] at hd
        simp only [Module.descend, Option.some.injEq] at hd
        subst hd
        exact ⟨rfl, s.index, f, by omega, hf, hg⟩
      | cons k rest =>
        right
        rw [hpath] at hd
        simp only [Module.descend, Module.children] at hd
        cases hc : cs[k]? with
        | none => rw [hc] at hd; cases hd
        | some c =>
          rw [hc] at hd
          exact ⟨k, rest, c, by simp, by simpa using hc, sub, f, hd, hf, hg⟩
/-- The sites below a list of children are the sites of each child, one level down. -/
theorem mem_childrenSites :
    ∀ (cs : List Module) (i : Nat) (s : Site),
      s ∈ childrenSites i cs ↔
        ∃ k rest c, s.path = (i + k) :: rest ∧ cs[k]? = some c ∧
          ∃ sub f, c.descend rest = some sub ∧ sub.get_methods[s.index]? = some f ∧
            f.graph = s.graph
  | [], i, s => by simp [childrenSites]
  | c :: cs, i, s => by
    rw [childrenSites, List.mem_append, List.mem_map, mem_childrenSites cs (i + 1) s]
    constructor
    · rintro (⟨t, ht, hts⟩ | ⟨k, rest, c', hp, hc, h⟩)
      · rw [mem_sites c t] at ht
        obtain ⟨sub, f, hd, hf, hg⟩ := ht
        subst hts
        exact ⟨0, t.path, c, rfl, by simp, sub, f, hd, hf, hg⟩
      · exact ⟨k + 1, rest, c', by rw [hp]; congr 1; omega, by simpa using hc, h⟩
    · rintro ⟨k, rest, c', hp, hc, sub, f, hd, hf, hg⟩
      cases k with
      | zero =>
        left
        simp only [List.getElem?_cons_zero, Option.some.injEq] at hc
        subst hc
        refine ⟨⟨rest, s.index, s.graph⟩, ?_, ?_⟩
        · rw [mem_sites c]
          exact ⟨sub, f, hd, hf, hg⟩
        · cases s
          simp only [Site.below] at *
          simp [hp]
      | succ k =>
        right
        exact ⟨k, rest, c', by rw [hp]; congr 1; omega, by simpa using hc, sub, f, hd, hf, hg⟩
end

/-- No path comes before itself. -/
theorem pathBefore_irrefl : ∀ p : List Nat, pathBefore p p = false
  | [] => rfl
  | i :: p => by simp [pathBefore, pathBefore_irrefl p]

/-- A site that comes before another is at another position. -/
theorem Site.before_irrefl_position (s t : Site) (h : s.before t = true) :
    (s.path, s.index) ≠ (t.path, t.index) := by
  intro heq
  simp only [Prod.mk.injEq] at heq
  obtain ⟨hp, hi⟩ := heq
  simp [Site.before, hp, hi, pathBefore_irrefl] at h

/-- Going below the same child keeps the order of two sites. -/
theorem Site.before_below (i : Nat) (s t : Site) :
    (Site.below i s).before (Site.below i t) = s.before t := by
  simp [Site.before, Site.below, pathBefore]

/-- The sites of a method list are in method order. -/
theorem methodSites_pairwise :
    ∀ (ms : List Method) (j : Nat),
      (methodSites j ms).Pairwise (fun s t => s.before t = true)
  | [], j => by simp [methodSites]
  | m :: ms, j => by
    rw [methodSites, List.pairwise_cons]
    refine ⟨?_, methodSites_pairwise ms (j + 1)⟩
    intro t ht
    rw [mem_methodSites] at ht
    obtain ⟨hp, k, f, hk, _, _⟩ := ht
    simp [Site.before, hp, pathBefore, hk]
    omega

mutual
/-- The sites of a tree are listed in preorder. -/
theorem sites_pairwise :
    ∀ m : Module, m.sites.Pairwise (fun s t => s.before t = true)
  | .mk ms cs attrs => by
    rw [Module.sites, List.pairwise_append]
    refine ⟨methodSites_pairwise ms 0, childrenSites_pairwise cs 0, ?_⟩
    intro s hs t ht
    rw [mem_methodSites] at hs
    rw [mem_childrenSites] at ht
    obtain ⟨hp, _⟩ := hs
    obtain ⟨k, rest, c, hq, _⟩ := ht
    simp [Site.before, hp, hq, pathBefore]
/-- The sites below a list of children are listed in preorder. -/
theorem childrenSites_pairwise :
    ∀ (cs : List Module) (i : Nat),
      (childrenSites i cs).Pairwise (fun s t => s.before t = true)
  | [], i => by simp [childrenSites]
  | c :: cs, i => by
    rw [childrenSites, List.pairwise_append, List.pairwise_map]
    refine ⟨?_, childrenSites_pairwise cs (i + 1), ?_⟩
    · simp only [Site.before_below]
      exact sites_pairwise c
    · intro s hs t ht
      rw [List.mem_map] at hs
      rw [mem_childrenSites] at ht
      obtain ⟨s0, _, hs0⟩ := hs
      obtain ⟨k, rest, c', hq, _⟩ := ht
      subst hs0
      simp [Site.before, Site.below, hq, pathBefore]
      left
      omega
end

/-- Mapping the graphs of a method list maps the graphs at its sites. -/
theorem methodSites_map (f : Graph → Graph) :
    ∀ (ms : List Method) (j : Nat),
      methodSites j (ms.map fun m => { m with graph := f m.graph }) =
        (methodSites j ms).map (fun s => { s with graph := f s.graph })
  | [], j => by simp [methodSites]
  | m :: ms, j => by simp [methodSites, methodSites_map f ms (j + 1)]

mutual
/-- Mapping the graphs of a tree maps the graphs at its sites. -/
theorem sites_mapGraphs (f : Graph → Graph) :
    ∀ m : Module,
      (m.mapGraphs f).sites = m.sites.map (fun s => { s with graph := f s.graph })
  | .mk ms cs attrs => by
    simp [Module.mapGraphs, Module.sites, methodSites_map, childrenSites_mapGraphs f cs 0]
/-- Mapping the graphs of a list of children maps the graphs at its sites. -/
theorem childrenSites_mapGraphs (f : Graph → Graph) :
    ∀ (cs : List Module) (i : Nat),
      childrenSites i (mapGraphsList f cs) =
        (childrenSites i cs).map (fun s => { s with graph := f s.graph })
  | [], i => by simp [mapGraphsList, childrenSites]
  | c :: cs, i => by
    simp [mapGraphsList, childrenSites, sites_mapGraphs f c,
      childrenSites_mapGraphs f cs (i + 1), Site.below, Function.comp_def]
end

/-- No position is listed twice among the sites of a tree. -/
theorem sites_positions_nodup (m : Module) :
    (m.sites.map fun s => (s.path, s.index)).Nodup := by
  rw [List.Nodup, List.pairwise_map]
  exact (sites_pairwise m).imp (fun {s t} h => Site.before_irrefl_position s t h)

/-! ## The stages after freezing -/

/-- Replacing the graph of the method `name` replaces it in the method found under `name`. -/
theorem Method.find?_set_graph_in (name : String) (g : Graph) :
    ∀ ms : List Method,
      (Method.set_graph_in name g ms).find? (fun f => f.name == name) =
        (ms.find? (fun f => f.name == name)).map (fun f => { f with graph := g })
  | [] => rfl
  | m :: ms => by
    unfold Method.set_graph_in
    by_cases h : (m.name == name) = true
    · simp [h]
    · simp [h, Method.find?_set_graph_in name g ms]

/-- After replacing the graph of a method, the method found under its name has the new graph. -/
theorem Module.find_method_with_method_graph (m : Module) (name : String) (g : Graph) :
    (m.with_method_graph name g).find_method name =
      (m.find_method name).map (fun f => { f with graph := g }) := by
  cases m
  exact Method.find?_set_graph_in name g _

/-- The activation-fusion stage on a module with a `forward` method. -/
theorem fuse_traced (p : PassFunctions) (m : Module) (log : List Event) (forward : Method)
    (h : m.find_method "forward" = some forward) :
    WithVulkan.vulkanFusePrePackedConvWithClamp p.traced m log =
      (.ok (m.with_method_graph "forward" (p.fuseGraph forward.graph)),
        log ++
          [.runOnGraph WithVulkan.fuseReluWithPackedOps.rewriter (some p.isClampFusable)
              forward.graph,
            .runOnGraph WithVulkan.fuseHardtanhWithPackedOps.rewriter
              (some p.isClampFusable)
              (p.runOnGraph WithVulkan.fuseReluWithPackedOps.rewriter
                (some p.isClampFusable) forward.graph)]) := by
  simp [WithVulkan.vulkanFusePrePackedConvWithClamp, Module.get_method, h,
    WithVulkan.fuseReluWithPackedOps, WithVulkan.fuseHardtanhWithPackedOps,
    PassFunctions.traced, PassFunctions.fuseGraph, record, bind, Pass.bind, pure, Pass.pure]

/-- The mutation-removal stage on a module with a `forward` method. -/
theorem removeMutation_traced (p : PassFunctions) (m : Module) (log : List Event)
    (forward : Method) (h : m.find_method "forward" = some forward) :
    WithVulkan.vulkanRemoveMutation p.traced m log =
      (.ok (m.with_method_graph "forward" (p.RemoveTensorMutation forward.graph)),
        log ++ [.RemoveTensorMutation forward.graph]) := by
  simp [WithVulkan.vulkanRemoveMutation, Module.get_method, h, PassFunctions.traced, record,
    bind, Pass.bind, pure, Pass.pure]

/-- The canonical-optimization stage on a module with a `forward` method. -/
theorem canonicalOptimizations_traced (p : PassFunctions) (m : Module) (log : List Event)
    (forward : Method) (h : m.find_method "forward" = some forward) :
    WithVulkan.vulkanRunCanonicalOptimizations p.traced m log =
      (.ok (m.with_methods
          (m.get_methods.map fun f => { f with graph := p.runOptimization f.graph false })),
        log ++ m.get_methods.flatMap (fun f => [.runOptimization f.graph false])) := by
  have hrun := forEachMethod_traced (fun graph => p.traced.runOptimization graph false)
    (fun g => p.runOptimization g false) (fun g => [Event.runOptimization g false])
    (fun g l => rfl) m.get_methods
  simp only [WithVulkan.vulkanRunCanonicalOptimizations, Module.get_method, h, bind,
    Pass.bind, pure, Pass.pure, hrun]

/-- The whole pipeline with collaborators that always return: it returns as soon as
the frozen and the cleaned module have a `forward` method, and calls the
collaborators in the order of the stages. -/
theorem optimize_traced (p : PassFunctions) (m : Module) (preserved_methods : List String)
    (log : List Event) (f5 f8 : Method)
    (h5 : (p.frozen m preserved_methods).find_method "forward" = some f5)
    (h8 : (p.cleaned m preserved_methods f5).find_method "forward" = some f8) :
    WithVulkan.vulkanOptimizeForMobile p.traced m preserved_methods log =
      (.ok (p.optimized m preserved_methods f5 f8),
        log ++ p.optimizeEvents m preserved_methods f5 f8) := by
  have h9 := fun g => (Module.find_method_with_method_graph
    (p.cleaned m preserved_methods f5) "forward" g).trans (congrArg _ h8)
  have hclone : ∀ c l, p.traced.clone c l = (.ok (p.clone c), l ++ [.clone c]) :=
    fun _ _ => rfl
  have heval : ∀ c l, p.traced.eval c l = (.ok (p.eval c), l ++ [.eval c]) :=
    fun _ _ => rfl
  have hbn : ∀ c l, p.traced.FoldConvBatchNorm c l =
      (.ok (p.FoldConvBatchNorm c), l ++ [.FoldConvBatchNorm c]) := fun _ _ => rfl
  have hfreeze : ∀ c ps l, p.traced.freeze_module c ps l =
      (.ok (p.freeze_module c ps), l ++ [.freeze_module c ps]) := fun _ _ _ => rfl
  have hfold : ∀ c l, WithVulkan.vulkanFoldPrePackingOps p.traced c l =
      (.ok (p.PrePackingOpsFolder c WithVulkan.vulkanFoldPrePackingOps.filter_fn
          "prepack_folding"),
        l ++ [.PrePackingOpsFolder c WithVulkan.vulkanFoldPrePackingOps.filter_fn
          "prepack_folding"]) := fun _ _ => rfl
  have hdrop : ∀ c l, p.traced.removeDropout c l =
      (.ok (p.removeDropout c), l ++ [.removeDropout c]) := fun _ _ => rfl
  simp only [PassFunctions.frozen, PassFunctions.inserted, PassFunctions.cleaned] at h5 h8 h9
  simp only [WithVulkan.vulkanOptimizeForMobile, bind, pure]
  simp only [Pass.bind, hclone, heval, hbn, insertModule_traced, hfreeze,
    fuse_traced p _ _ f5 h5, hfold, hdrop, removeMutation_traced p _ _ f8 h8,
    canonicalOptimizations_traced p _ _ _ (h9 _), Pass.pure, List.append_assoc,
    PassFunctions.optimized, PassFunctions.optimizeEvents, PassFunctions.frozen,
    PassFunctions.inserted, PassFunctions.cleaned, List.cons_append, List.nil_append]

/-! ## The pipeline of `vulkanOptimizeForMobile` -/

/-- Nothing satisfying `q` is left after filtering `q` out. -/
theorem find?_filter_not {α : Type} (q : α → Bool) :
    ∀ l : List α, (l.filter (fun a => !q a)).find? q = none
  | [] => rfl
  | a :: l => by
    cases h : q a <;> simp [List.filter, h, find?_filter_not q l]

/-- A registered attribute is the attribute found under its name. -/
theorem Module.attr_register_attribute (m : Module) (name : String) (t : TypePtr)
    (v : IValue) : (m.register_attribute name t v).attr name = some (t, v) := by
  simp [Module.attr, Module.register_attribute, Module.attributes, List.find?_append,
    find?_filter_not (fun a : String × TypePtr × IValue => a.1 == name)]

/-- C1: `vulkanOptimizeForMobile` clones the module and applies to the clone, each
stage to the module the previous one left and in this order: eval,
FoldConvBatchNorm, vulkanInsertPrePackedOps, freeze_module with the preserved
methods, vulkanFusePrePackedConvWithClamp, vulkanFoldPrePackingOps, removeDropout,
vulkanRemoveMutation, vulkanRunCanonicalOptimizations, and last the registration of
`optimized_for_vulkan`; it aborts where a stage aborts. Insertion comes before
activation fusion, freezing before folding, and every module it returns carries
the boolean attribute `optimized_for_vulkan` with value true. With collaborators
that always return it returns whenever the frozen and the cleaned module have a
`forward` method, and the collaborators were then called in the order of the
stages. -/
theorem C1_optimize_applies_the_stages_in_order (σ : Type) (ext : Collaborators σ)
    (m : Module) (preserved_methods : List String) :
    WithVulkan.vulkanOptimizeForMobile ext m preserved_methods =
      Pass.bind (ext.clone m) (Stage.runAll ext preserved_methods Stage.pipeline) ∧
    Stage.pipeline =
      [.eval, .FoldConvBatchNorm, .vulkanInsertPrePackedOps, .freeze_module,
        .vulkanFusePrePackedConvWithClamp, .vulkanFoldPrePackingOps, .removeDropout,
        .vulkanRemoveMutation, .vulkanRunCanonicalOptimizations,
        .register_optimized_for_vulkan] ∧
    (Stage.pipeline.indexOf .vulkanInsertPrePackedOps <
        Stage.pipeline.indexOf .vulkanFusePrePackedConvWithClamp ∧
      Stage.pipeline.indexOf .freeze_module <
        Stage.pipeline.indexOf .vulkanFoldPrePackingOps ∧
      Stage.pipeline.getLast? = some .register_optimized_for_vulkan ∧
      Stage.pipeline.Nodup) ∧
    (∀ (s s' : σ) (optimized : Module),
      WithVulkan.vulkanOptimizeForMobile ext m preserved_methods s = (.ok optimized, s') →
        optimized.attr "optimized_for_vulkan" = some (BoolType.get, .bool true)) ∧
    (∀ (p : PassFunctions) (log : List Event) (forward forward2 : Method),
      (p.frozen m preserved_methods).find_method "forward" = some forward →
      (p.cleaned m preserved_methods forward).find_method "forward" = some forward2 →
        WithVulkan.vulkanOptimizeForMobile p.traced m preserved_methods log =
          (.ok (p.optimized m preserved_methods forward forward2),
            log ++ p.optimizeEvents m preserved_methods forward forward2)) := by
  refine ⟨?_, rfl, by decide, ?_,
    fun p log f5 f8 h5 h8 => optimize_traced p m preserved_methods log f5 f8 h5 h8⟩
  · funext s
    simp only [WithVulkan.vulkanOptimizeForMobile, Stage.pipeline, Stage.runAll, Stage.run,
      bind, pure]
    simp only [Pass.bind, Pass.pure]
  · intro s s' optimized h
    simp only [WithVulkan.vulkanOptimizeForMobile, bind, pure] at h
    obtain ⟨c1, s1, _, h⟩ := Pass.bind_ok h
    obtain ⟨c2, s2, _, h⟩ := Pass.bind_ok h
    obtain ⟨c3, s3, _, h⟩ := Pass.bind_ok h
    obtain ⟨c4, s4, _, h⟩ := Pass.bind_ok h
    obtain ⟨c5, s5, _, h⟩ := Pass.bind_ok h
    obtain ⟨c6, s6, _, h⟩ := Pass.bind_ok h
    obtain ⟨c7, s7, _, h⟩ := Pass.bind_ok h
    obtain ⟨c8, s8, _, h⟩ := Pass.bind_ok h
    obtain ⟨c9, s9, _, h⟩ := Pass.bind_ok h
    obtain ⟨c10, s10, _, h⟩ := Pass.bind_ok h
    simp only [Pass.pure, Prod.mk.injEq, Except.ok.injEq] at h
    rw [← h.1]
    exact Module.attr_register_attribute c10 _ _ _

/-- C1 on the example module, with collaborators that log their calls and change
nothing: the pipeline returns, the module returned carries the attribute, and the
collaborators were called in the order of the stages. -/
theorem C1_optimize_applies_the_stages_in_order_witness :
    WithVulkan.vulkanOptimizeForMobile PassFunctions.id.traced exampleModule ["helper"] [] =
      (.ok (PassFunctions.id.optimized exampleModule ["helper"]
          ⟨"forward", exampleGraph "x"⟩ ⟨"forward", exampleGraph "x"⟩),
        [] ++ PassFunctions.id.optimizeEvents exampleModule ["helper"]
          ⟨"forward", exampleGraph "x"⟩ ⟨"forward", exampleGraph "x"⟩) ∧
    (PassFunctions.id.optimized exampleModule ["helper"]
        ⟨"forward", exampleGraph "x"⟩ ⟨"forward", exampleGraph "x"⟩).attr
      "optimized_for_vulkan" = some (BoolType.get, .bool true) ∧
    (PassFunctions.id.optimizeEvents exampleModule ["helper"]
        ⟨"forward", exampleGraph "x"⟩ ⟨"forward", exampleGraph "x"⟩).map Event.callee =
      ["clone", "eval", "FoldConvBatchNorm",
        "FuseLinear", "runOnGraph", "runOnGraph",
        "replaceConvolutionWithAtenConv", "runOnGraph", "runOnGraph",
        "FuseLinear", "runOnGraph", "runOnGraph",
        "replaceConvolutionWithAtenConv", "runOnGraph", "runOnGraph",
        "FuseLinear", "runOnGraph", "runOnGraph",
        "replaceConvolutionWithAtenConv", "runOnGraph", "runOnGraph",
        "freeze_module", "runOnGraph", "runOnGraph", "PrePackingOpsFolder",
        "removeDropout", "RemoveTensorMutation", "runOptimization", "runOptimization"] :=
  ⟨(C1_optimize_applies_the_stages_in_order (List Event) PassFunctions.id.traced exampleModule
      ["helper"]).2.2.2.2 PassFunctions.id [] ⟨"forward", exampleGraph "x"⟩
      ⟨"forward", exampleGraph "x"⟩ (by decide) (by decide),
    (C1_optimize_applies_the_stages_in_order (List Event) PassFunctions.id.traced exampleModule
      ["helper"]).2.2.2.1 [] _ _ rfl,
    by decide⟩

/-! ## The prepack-folding predicate -/

/-- C2: the node predicate handed to the prepack folder holds of a node exactly when
its kind is one of the three prepack kinds; it fails on a node of any of the three
run kinds, whatever its inputs, outputs and attributes; and it is this predicate
that `vulkanFoldPrePackingOps` passes to `PrePackingOpsFolder`. -/
theorem C2_filter_fn_selects_exactly_the_prepack_kinds (n : Node) :
    (WithVulkan.vulkanFoldPrePackingOps.filter_fn n = true ↔
      n.kind ∈ [Symbol.fromQualString "vulkan_prepack::conv2d_clamp_prepack",
        Symbol.fromQualString "vulkan_prepack::linear_prepack",
        Symbol.fromQualString "vulkan_prepack::conv2d_transpose_clamp_prepack"]) ∧
    WithVulkan.vulkanFoldPrePackingOps.filter_fn
      { n with kind := Symbol.fromQualString "vulkan_prepack::linear_run" } = false ∧
    WithVulkan.vulkanFoldPrePackingOps.filter_fn
      { n with kind := Symbol.fromQualString "vulkan_prepack::conv2d_clamp_run" } = false ∧
    WithVulkan.vulkanFoldPrePackingOps.filter_fn
      { n with kind := Symbol.fromQualString "vulkan_prepack::conv2d_transpose_clamp_run" }
        = false ∧
    (∀ (σ : Type) (ext : Collaborators σ) (m : Module),
      WithVulkan.vulkanFoldPrePackingOps ext m =
        ext.PrePackingOpsFolder m WithVulkan.vulkanFoldPrePackingOps.filter_fn
          "prepack_folding") := by
  refine ⟨?_, rfl, rfl, rfl, fun _ _ _ => rfl⟩
  simp [WithVulkan.vulkanFoldPrePackingOps.filter_fn, or_assoc]

/-! ## The linear insertion rules -/

/-- C3: the two linear rules are the `prim::CallFunction` rule, run with the filter
that accepts a match exactly when the function bound to `%linear` is named
`linear`, and the `aten::linear` rule, run unfiltered. Either replacement declares
the placeholders of its "before" pattern, holds no `aten::linear` and no
`prim::CallFunction` node, and is exactly `aten::t(%weight)`,
`linear_prepack(%weight_t, %bias)`, `linear_run(%input, %packed_weight_bias)`, its
one returned value `%res` being the output of `linear_run`. -/
theorem C3_linear_rules_replace_linear_by_prepack_and_run :
    (WithVulkan.insertPrePackedLinearOp.linear_call_fn_rewriter.patterns =
        [⟨WithVulkan.insertPrePackedLinearOp.linear_before_inline,
          WithVulkan.insertPrePackedLinearOp.prepacked_ops_pattern_before_inline,
          WithVulkan.insertPrePackedLinearOp.value_mappings⟩] ∧
      WithVulkan.insertPrePackedLinearOp.linear_rewriter.patterns =
        [⟨WithVulkan.insertPrePackedLinearOp.linear_pattern,
          WithVulkan.insertPrePackedLinearOp.prepacked_ops_pattern,
          WithVulkan.insertPrePackedLinearOp.value_mappings⟩]) ∧
    (WithVulkan.insertPrePackedLinearOp.linear_before_inline.nodes.map Node.shape =
        [(Symbol.fromQualString "prim::CallFunction",
          ["linear", "input", "weight", "bias"], ["res"])] ∧
      WithVulkan.insertPrePackedLinearOp.linear_pattern.nodes.map Node.shape =
        [(Symbol.fromQualString "aten::linear", ["input", "weight", "bias"], ["res"])]) ∧
    (WithVulkan.insertPrePackedLinearOp.prepacked_ops_pattern_before_inline.inputs =
        WithVulkan.insertPrePackedLinearOp.linear_before_inline.inputs ∧
      WithVulkan.insertPrePackedLinearOp.prepacked_ops_pattern.inputs =
        WithVulkan.insertPrePackedLinearOp.linear_pattern.inputs) ∧
    (∀ r ∈ [WithVulkan.insertPrePackedLinearOp.prepacked_ops_pattern_before_inline,
        WithVulkan.insertPrePackedLinearOp.prepacked_ops_pattern],
      Symbol.fromQualString "aten::linear" ∉ r.kinds ∧
      Symbol.fromQualString "prim::CallFunction" ∉ r.kinds ∧
      r.nodes.map Node.shape =
        [(Symbol.fromQualString "aten::t", ["weight"], ["weight_t"]),
          (Symbol.fromQualString "vulkan_prepack::linear_prepack",
            ["weight_t", "bias"], ["packed_weight_bias"]),
          (Symbol.fromQualString "vulkan_prepack::linear_run",
            ["input", "packed_weight_bias"], ["res"])] ∧
      r.outputs = ["res"] ∧
      (r.producers "res").map Node.shape =
        [(Symbol.fromQualString "vulkan_prepack::linear_run",
          ["input", "packed_weight_bias"], ["res"])]) ∧
    (∀ (getFuncName : ValuePtr → Except Error String) (match_ : Match)
        (vmap : List (String × ValuePtr)),
      WithVulkan.insertPrePackedLinearOp.filter getFuncName match_ vmap = .ok true ↔
        ∃ pattern_value linear_value,
          mapAt vmap "linear" = .ok pattern_value ∧
          mapAt match_.values_map pattern_value = .ok linear_value ∧
          getFuncName linear_value = .ok "linear") ∧
    (∀ (p : PassFunctions) (graph : Graph) (log : List Event),
      WithVulkan.insertPrePackedLinearOp p.traced graph log =
        (.ok (p.runOnGraph WithVulkan.insertPrePackedLinearOp.linear_rewriter none
            (p.runOnGraph WithVulkan.insertPrePackedLinearOp.linear_call_fn_rewriter
              (some (WithVulkan.insertPrePackedLinearOp.filter p.getFuncName))
              (p.FuseLinear graph))),
          log ++ [.FuseLinear graph,
            .runOnGraph WithVulkan.insertPrePackedLinearOp.linear_call_fn_rewriter
              (some (WithVulkan.insertPrePackedLinearOp.filter p.getFuncName))
              (p.FuseLinear graph),
            .runOnGraph WithVulkan.insertPrePackedLinearOp.linear_rewriter none
              (p.runOnGraph WithVulkan.insertPrePackedLinearOp.linear_call_fn_rewriter
                (some (WithVulkan.insertPrePackedLinearOp.filter p.getFuncName))
                (p.FuseLinear graph))])) := by
  refine ⟨by decide, by decide, by decide, by decide, ?_, ?_⟩
  · intro getFuncName match_ vmap
    unfold WithVulkan.insertPrePackedLinearOp.filter
    cases h1 : mapAt vmap "linear" with
    | error e => simp [bind, Except.bind]
    | ok pv =>
      cases h2 : mapAt match_.values_map pv with
      | error e => simp [bind, Except.bind, h2]
      | ok tv =>
        cases h3 : getFuncName tv with
        | error e => simp [bind, Except.bind, h2, h3]
        | ok name => simp [bind, Except.bind, h2, h3, pure, Except.pure]
  · intro p graph log
    simp [WithVulkan.insertPrePackedLinearOp, PassFunctions.traced, record, bind, Pass.bind,
      pure, Pass.pure]

/-! ## The convolution insertion rules -/

/-- C10: the `aten::conv2d` and `aten::conv_transpose2d` rules. Before and
replacement pattern declare the same placeholders in the same order; the
replacement holds no `aten::conv2d` and no `aten::conv_transpose2d` node; its
prepack node receives the placeholders the convolution received for weight, bias,
stride, padding, dilation and groups (the transposed one also output_padding, in
the order weight, bias, stride, padding, output_padding, dilation, groups), then
twice the one `None` constant `%output_min_max`; and the returned `%res` is the
output of the run node applied to `(%input, %packed_weight_bias)`. -/
theorem C10_conv_rules_pass_the_convolution_arguments_to_prepack :
    (WithVulkan.insertPrePackedConv2dOp.rewriter.patterns =
        [⟨WithVulkan.insertPrePackedConv2dOp.conv_2d_pattern,
          WithVulkan.insertPrePackedConv2dOp.prepacked_ops_conv2d_pattern,
          WithVulkan.insertPrePackedConv2dOp.value_mappings⟩] ∧
      WithVulkan.insertPrePackedConv2dOp.transpose_rewriter.patterns =
        [⟨WithVulkan.insertPrePackedConv2dOp.conv_2d_transpose_pattern,
          WithVulkan.insertPrePackedConv2dOp.prepacked_ops_conv2d_transpose_pattern,
          WithVulkan.insertPrePackedConv2dOp.value_mappings⟩]) ∧
    (WithVulkan.insertPrePackedConv2dOp.prepacked_ops_conv2d_pattern.inputs =
        WithVulkan.insertPrePackedConv2dOp.conv_2d_pattern.inputs ∧
      WithVulkan.insertPrePackedConv2dOp.prepacked_ops_conv2d_transpose_pattern.inputs =
        WithVulkan.insertPrePackedConv2dOp.conv_2d_transpose_pattern.inputs) ∧
    (WithVulkan.insertPrePackedConv2dOp.conv_2d_pattern.inputs.map (·.name) =
        ["input", "weight", "bias", "stride", "padding", "dilation", "groups"] ∧
      WithVulkan.insertPrePackedConv2dOp.conv_2d_transpose_pattern.inputs.map (·.name) =
        ["input", "weight", "bias", "stride", "padding", "dilation", "output_padding",
          "groups"]) ∧
    (WithVulkan.insertPrePackedConv2dOp.conv_2d_pattern.nodes.map Node.shape =
        [(Symbol.fromQualString "aten::conv2d",
          ["input", "weight", "bias", "stride", "padding", "dilation", "groups"],
          ["res"])] ∧
      WithVulkan.insertPrePackedConv2dOp.conv_2d_transpose_pattern.nodes.map Node.shape =
        [(Symbol.fromQualString "aten::conv_transpose2d",
          ["input", "weight", "bias", "stride", "padding", "output_padding", "groups",
            "dilation"],
          ["res"])]) ∧
    (∀ r ∈ [WithVulkan.insertPrePackedConv2dOp.prepacked_ops_conv2d_pattern,
        WithVulkan.insertPrePackedConv2dOp.prepacked_ops_conv2d_transpose_pattern],
      Symbol.fromQualString "aten::conv2d" ∉ r.kinds ∧
      Symbol.fromQualString "aten::conv_transpose2d" ∉ r.kinds ∧
      r.outputs = ["res"] ∧
      r.producers "output_min_max" =
        [{ outputs := [.typed "output_min_max" "None"]
           kind := .fromQualString "prim::Constant"
           attributes := []
           inputs := [] }]) ∧
    (WithVulkan.insertPrePackedConv2dOp.prepacked_ops_conv2d_pattern.nodes.map Node.shape =
        [(Symbol.fromQualString "prim::Constant", [], ["output_min_max"]),
          (Symbol.fromQualString "vulkan_prepack::conv2d_clamp_prepack",
            ["weight", "bias", "stride", "padding", "dilation", "groups",
              "output_min_max", "output_min_max"],
            ["packed_weight_bias"]),
          (Symbol.fromQualString "vulkan_prepack::conv2d_clamp_run",
            ["input", "packed_weight_bias"], ["res"])] ∧
      (WithVulkan.insertPrePackedConv2dOp.prepacked_ops_conv2d_pattern.producers "res").map
          Node.shape =
        [(Symbol.fromQualString "vulkan_prepack::conv2d_clamp_run",
          ["input", "packed_weight_bias"], ["res"])]) ∧
    (WithVulkan.insertPrePackedConv2dOp.prepacked_ops_conv2d_transpose_pattern.nodes.map Node.shape =
        [(Symbol.fromQualString "prim::Constant", [], ["output_min_max"]),
          (Symbol.fromQualString "vulkan_prepack::conv2d_transpose_clamp_prepack",
            ["weight", "bias", "stride", "padding", "output_padding", "dilation", "groups",
              "output_min_max", "output_min_max"],
            ["packed_weight_bias"]),
          (Symbol.fromQualString "vulkan_prepack::conv2d_transpose_clamp_run",
            ["input", "packed_weight_bias"], ["res"])] ∧
      (WithVulkan.insertPrePackedConv2dOp.prepacked_ops_conv2d_transpose_pattern.producers "res").map
          Node.shape =
        [(Symbol.fromQualString "vulkan_prepack::conv2d_transpose_clamp_run",
          ["input", "packed_weight_bias"], ["res"])]) ∧
    ((∀ a ∈ ["weight", "bias", "stride", "padding", "dilation", "groups"],
        a ∈ (WithVulkan.insertPrePackedConv2dOp.conv_2d_pattern.nodesOfKind
          (.fromQualString "aten::conv2d")).flatMap (·.inputs) ∧
        a ∈ WithVulkan.insertPrePackedConv2dOp.conv_2d_pattern.inputs.map (·.name)) ∧
      (∀ a ∈ ["weight", "bias", "stride", "padding", "output_padding", "dilation", "groups"],
        a ∈ (WithVulkan.insertPrePackedConv2dOp.conv_2d_transpose_pattern.nodesOfKind
          (.fromQualString "aten::conv_transpose2d")).flatMap (·.inputs) ∧
        a ∈ WithVulkan.insertPrePackedConv2dOp.conv_2d_transpose_pattern.inputs.map (·.name))) := by
  refine ⟨by decide, by decide, by decide, by decide, by decide, by decide, by decide,
    by decide⟩

/-! ## The activation-fusion rules -/

/-- C4: the four activation-fusion rules (relu, relu_, hardtanh, hardtanh_). Each
replacement declares the placeholders of its "before" pattern, holds no activation
node, has exactly one node producing `%res`, namely
`conv2d_clamp_run(%input, %packed_weight_bias)`, and gives `conv2d_clamp_prepack`
the six placeholders weight, bias, stride, padding, dilation, groups of the matched
prepack, in that order, followed by `%output_min`, `%output_max`: for the hardtanh
rules the placeholders the matched hardtanh node took as its bounds, for the relu
rules the constants `0.0 : float` and `None`. -/
theorem C4_fusion_rules_move_the_clamp_bounds_into_prepack :
    (WithVulkan.fuseReluWithPackedOps.rewriter.patterns =
        [⟨WithVulkan.fuseReluWithPackedOps.conv2d_prepack_run_relu,
          WithVulkan.fuseReluWithPackedOps.conv2d_prepack_run_relu_fused,
          WithVulkan.fuseReluWithPackedOps.value_mappings⟩,
         ⟨WithVulkan.fuseReluWithPackedOps.conv2d_prepack_run_relu_inplace,
          WithVulkan.fuseReluWithPackedOps.conv2d_prepack_run_relu_fused,
          WithVulkan.fuseReluWithPackedOps.value_mappings⟩] ∧
      WithVulkan.fuseHardtanhWithPackedOps.rewriter.patterns =
        [⟨WithVulkan.fuseHardtanhWithPackedOps.conv2d_prepack_run_hardtanh,
          WithVulkan.fuseHardtanhWithPackedOps.conv2d_prepack_run_hardtanh_fused,
          WithVulkan.fuseHardtanhWithPackedOps.value_mappings⟩,
         ⟨WithVulkan.fuseHardtanhWithPackedOps.conv2d_prepack_run_hardtanh_inplace,
          WithVulkan.fuseHardtanhWithPackedOps.conv2d_prepack_run_hardtanh_fused,
          WithVulkan.fuseHardtanhWithPackedOps.value_mappings⟩]) ∧
    (∀ r ∈ fusionRules,
      r.replacement.inputs = r.pattern.inputs ∧
      (∀ k ∈ activationKinds, k ∉ r.replacement.kinds) ∧
      (r.pattern.nodes.filter (fun n => n.kind ∈ activationKinds)).length = 1 ∧
      r.replacement.outputs = ["res"] ∧
      (r.replacement.producers "res").map Node.shape =
        [(Symbol.fromQualString "vulkan_prepack::conv2d_clamp_run",
          ["input", "packed_weight_bias"], ["res"])] ∧
      (r.pattern.nodesOfKind
          (.fromQualString "vulkan_prepack::conv2d_clamp_prepack")).map Node.shape =
        [(Symbol.fromQualString "vulkan_prepack::conv2d_clamp_prepack",
          ["weight", "bias", "stride", "padding", "dilation", "groups",
            "dummy_min_max", "dummy_min_max"],
          ["packed_weight_bias"])] ∧
      (r.replacement.nodesOfKind
          (.fromQualString "vulkan_prepack::conv2d_clamp_prepack")).map Node.shape =
        [(Symbol.fromQualString "vulkan_prepack::conv2d_clamp_prepack",
          ["weight", "bias", "stride", "padding", "dilation", "groups",
            "output_min", "output_max"],
          ["packed_weight_bias"])] ∧
      (∀ a ∈ ["input", "weight", "bias", "stride", "padding", "dilation", "groups"],
        a ∈ r.pattern.inputs.map (·.name))) ∧
    (∀ r ∈ WithVulkan.fuseHardtanhWithPackedOps.rewriter.patterns,
      (r.pattern.nodes.filter (fun n => n.kind ∈ activationKinds)).map (·.inputs) =
        [["conv2d_res", "output_min", "output_max"]] ∧
      "output_min" ∈ r.replacement.inputs.map (·.name) ∧
      "output_max" ∈ r.replacement.inputs.map (·.name) ∧
      r.replacement.producers "output_min" = [] ∧
      r.replacement.producers "output_max" = []) ∧
    (∀ r ∈ WithVulkan.fuseReluWithPackedOps.rewriter.patterns,
      (r.pattern.nodes.filter (fun n => n.kind ∈ activationKinds)).map (·.inputs) =
        [["conv2d_res"]] ∧
      r.replacement.producers "output_min" =
        [{ outputs := [.typed "output_min" "float"]
           kind := .fromQualString "prim::Constant"
           attributes := [("value", "0.0")]
           inputs := [] }] ∧
      r.replacement.producers "output_max" =
        [{ outputs := [.typed "output_max" "None"]
           kind := .fromQualString "prim::Constant"
           attributes := []
           inputs := [] }]) ∧
    ((fusionRules.map fun r =>
        (r.pattern.nodes.filter (fun n => n.kind ∈ activationKinds)).map (·.kind)) =
      [[.fromQualString "aten::relu"], [.fromQualString "aten::relu_"],
        [.fromQualString "aten::hardtanh"], [.fromQualString "aten::hardtanh_"]]) := by
  refine ⟨by decide, by decide, by decide, by decide, by decide⟩

/-! ## The value-name pairs of the rules -/

/-- C8 (as stated, refuted): it is not the case that every pair `(a, b)` of every
rule names a value of the "before" pattern by `a` and a value of the replacement
by `b`: the `aten::linear` rule registers `("weight_t", "res")`, and `%weight_t`
is no value of its "before" pattern. -/
theorem C8_pairs_are_not_before_then_after :
    ¬ (∀ r ∈ allRules, ∀ pr ∈ r.value_name_pairs,
        pr.1 ∈ r.pattern.valueNames ∧ pr.2 ∈ r.replacement.valueNames) ∧
    (("weight_t", "res") ∈ WithVulkan.insertPrePackedLinearOp.value_mappings ∧
      "weight_t" ∉ WithVulkan.insertPrePackedLinearOp.linear_pattern.valueNames ∧
      (⟨WithVulkan.insertPrePackedLinearOp.linear_pattern,
        WithVulkan.insertPrePackedLinearOp.prepacked_ops_pattern,
        WithVulkan.insertPrePackedLinearOp.value_mappings⟩ : RewritePatternDescr) ∈ allRules) := by
  refine ⟨by decide, by decide⟩

/-- C8 (amended): for every rule registered in this file, each pair `(a, b)` of
its value mapping is a (new-pattern-name, old-pattern-name) pair: `a` names a value
declared or produced in the rule's replacement pattern and `b` names a value
declared or produced in the rule's "before" pattern. -/
theorem C8_pairs_are_after_then_before (r : RewritePatternDescr) (hr : r ∈ allRules)
    (pr : String × String) (hpr : pr ∈ r.value_name_pairs) :
    pr.1 ∈ r.replacement.valueNames ∧ pr.2 ∈ r.pattern.valueNames := by
  have h : ∀ r ∈ allRules, ∀ pr ∈ r.value_name_pairs,
      pr.1 ∈ r.replacement.valueNames ∧ pr.2 ∈ r.pattern.valueNames := by decide
  exact h r hr pr hpr

/-- The amended C8 at the pair `("output_min", "packed_weight_bias")` of the relu
rule. -/
theorem C8_pairs_are_after_then_before_witness :
    "output_min" ∈ WithVulkan.fuseReluWithPackedOps.conv2d_prepack_run_relu_fused.valueNames ∧
    "packed_weight_bias" ∈ WithVulkan.fuseReluWithPackedOps.conv2d_prepack_run_relu.valueNames :=
  C8_pairs_are_after_then_before
    ⟨WithVulkan.fuseReluWithPackedOps.conv2d_prepack_run_relu,
      WithVulkan.fuseReluWithPackedOps.conv2d_prepack_run_relu_fused,
      WithVulkan.fuseReluWithPackedOps.value_mappings⟩
    (by decide) ("output_min", "packed_weight_bias") (by decide)

/-! ## The build without Vulkan -/

/-- C9: without `USE_VULKAN` every entry point fails with the internal assertion,
for every argument and from every state, and leaves the state as it found it: no
collaborator is called and nothing is mutated. `vulkanOptimizeForMobile` returns
no module. -/
theorem C9_without_vulkan_every_entry_point_asserts (σ : Type) (s : σ) (graph : Graph)
    (module : Module) (preserved_methods : List String) :
    WithoutVulkan.vulkanInsertPrePackedOps_graph graph s =
      (.error (.internalAssert "Vulkan is not enabled. Please build with USE_VULKAN=1"), s) ∧
    WithoutVulkan.vulkanInsertPrePackedOps_module module s =
      (.error (.internalAssert "Vulkan is not enabled. Please build with USE_VULKAN=1"), s) ∧
    WithoutVulkan.vulkanFusePrePackedConvWithClamp module s =
      (.error (.internalAssert "Vulkan is not enabled. Please build with USE_VULKAN=1"), s) ∧
    WithoutVulkan.vulkanFoldPrePackingOps module s =
      (.error (.internalAssert "Vulkan is not enabled. Please build with USE_VULKAN=1"), s) ∧
    WithoutVulkan.vulkanOptimizeForMobile module preserved_methods s =
      (.error (.internalAssert
        ("Mobile optimizaiton only available with Vulkan at the moment. " ++
          "Vulkan is not enabled. Please build with USE_VULKAN=1")), s) ∧
    (∀ m : Module,
      (WithoutVulkan.vulkanOptimizeForMobile module preserved_methods s).1 ≠ .ok m) := by
  refine ⟨rfl, rfl, rfl, rfl, rfl, ?_⟩
  intro m h
  have h2 : (WithoutVulkan.vulkanOptimizeForMobile module preserved_methods s).1 =
      .error (.internalAssert
        ("Mobile optimizaiton only available with Vulkan at the moment. " ++
          "Vulkan is not enabled. Please build with USE_VULKAN=1")) := rfl
  rw [h2] at h
  cases h

/-! ## The kinds the replacements create -/

/-- No replacement pattern of any rule holds a node of a kind an insertion rule
matches on, nor a node of an activation kind; every "before" pattern of an
insertion rule is a single node of such a kind, and every "before" pattern of a
fusion rule holds an activation node. The fusion rules do match on the
`conv2d_clamp_prepack` and `conv2d_clamp_run` nodes the convolution rule creates. -/
theorem replacements_hold_no_trigger_kind :
    (∀ r ∈ allRules, ∀ k ∈ r.replacement.kinds,
      k ∉ insertionTriggerKinds ∧ k ∉ activationKinds) ∧
    (∀ r ∈ insertionRules, ∃ k ∈ insertionTriggerKinds, r.pattern.kinds = [k]) ∧
    (∀ r ∈ fusionRules, ∃ k ∈ activationKinds, k ∈ r.pattern.kinds) ∧
    (∀ r ∈ fusionRules,
      Symbol.fromQualString "vulkan_prepack::conv2d_clamp_prepack" ∈ r.pattern.kinds ∧
      Symbol.fromQualString "vulkan_prepack::conv2d_clamp_prepack" ∈
        WithVulkan.insertPrePackedConv2dOp.prepacked_ops_conv2d_pattern.kinds) := by
  refine ⟨by decide, by decide, by decide, by decide⟩

/-- Returning the value just computed adds nothing. -/
theorem Pass.bind_pure {σ α : Type} (x : Pass σ α) :
    Pass.bind x (fun a => Pass.pure a) = x := by
  funext s
  unfold Pass.bind
  split <;> rename_i h <;> exact h.symm

/-! ## The traversal of `vulkanInsertPrePackedOps(script::Module&)` -/

/-- C6: on every module tree `vulkanInsertPrePackedOps` returns, and what it did is
one graph-level insertion (`insertPrePackedLinearOp` then `insertPrePackedConv2dOp`)
per site of the tree, in site order, and nothing else: the calls logged are those of
the insertion on the graph of each site in turn, and the tree returned has the
inserted graph at every site. The sites are exactly the method graphs of the
module and of its transitive sub-modules, each position once, listed in preorder:
the methods of a module before everything below its children, and the children in
the order of `children()`. -/
theorem C6_insertion_visits_every_method_graph_once_in_preorder
    (p : PassFunctions) (m : Module) (log : List Event) :
    WithVulkan.vulkanInsertPrePackedOps_module p.traced m log =
      (.ok (m.mapGraphs p.insertGraph),
        log ++ m.sites.flatMap (fun s => p.insertGraphEvents s.graph)) ∧
    (m.mapGraphs p.insertGraph).sites =
      m.sites.map (fun s => { s with graph := p.insertGraph s.graph }) ∧
    (∀ (g : Graph) (log' : List Event),
      WithVulkan.vulkanInsertPrePackedOps_graph p.traced g log' =
        (.ok (p.insertGraph g), log' ++ p.insertGraphEvents g) ∧
      WithVulkan.vulkanInsertPrePackedOps_graph p.traced g =
        Pass.bind (WithVulkan.insertPrePackedLinearOp p.traced g)
          (WithVulkan.insertPrePackedConv2dOp p.traced)) ∧
    (∀ s : Site, s ∈ m.sites ↔
      ∃ sub f, m.descend s.path = some sub ∧ sub.get_methods[s.index]? = some f ∧
        f.graph = s.graph) ∧
    (m.sites.map fun s => (s.path, s.index)).Nodup ∧
    m.sites.Pairwise (fun s t => s.before t = true) ∧
    m.sites = methodSites 0 m.get_methods ++ childrenSites 0 m.children := by
  refine ⟨insertModule_traced p m log, sites_mapGraphs _ m,
    fun g log' => ⟨insertGraph_traced p g log', ?_⟩, mem_sites m, sites_positions_nodup m,
    sites_pairwise m, ?_⟩
  · show Pass.bind (WithVulkan.insertPrePackedLinearOp p.traced g)
      (fun g1 => Pass.bind (WithVulkan.insertPrePackedConv2dOp p.traced g1)
        (fun g2 => Pass.pure g2)) = _
    simp only [Pass.bind_pure]
  · cases m
    rfl

/-- The insertion on the example module, with collaborators that change nothing:
every collaborator call is on the graph of `forward`, then of `helper`, then of
the child's `forward`, six calls each. -/
theorem insertion_on_the_example_module :
    (WithVulkan.vulkanInsertPrePackedOps_module PassFunctions.id.traced exampleModule
        []).2.filterMap Event.graph? =
      List.replicate 6 (exampleGraph "x") ++ List.replicate 6 (exampleGraph "y") ++
        List.replicate 6 (exampleGraph "z") ∧
    exampleModule.sites =
      [⟨[], 0, exampleGraph "x"⟩, ⟨[], 1, exampleGraph "y"⟩, ⟨[0], 0, exampleGraph "z"⟩] := by
  refine ⟨by decide, by decide⟩

/-! ## The activation-fusion stage -/

/-- Replacing a method graph leaves the sub-modules alone. -/
theorem Module.children_with_method_graph (m : Module) (name : String) (g : Graph) :
    (m.with_method_graph name g).children = m.children := by
  cases m
  rfl

/-- Replacing the graph of one method leaves the methods of another name alone. -/
theorem Method.mem_set_graph_in (name : String) (g : Graph) :
    ∀ (ms : List Method) (f : Method),
      f ∈ Method.set_graph_in name g ms → (f.name == name) = false → f ∈ ms
  | [], f, h, _ => by simp [Method.set_graph_in] at h
  | m :: ms, f, h, hn => by
    unfold Method.set_graph_in at h
    split at h
    · next hm =>
      rw [List.mem_cons] at h
      rcases h with h | h
      · subst h
        simp only at hn
        rw [hm] at hn
        cases hn
      · exact List.mem_cons_of_mem _ h
    · rw [List.mem_cons] at h
      rcases h with h | h
      · subst h
        exact List.mem_cons_self _ _
      · exact List.mem_cons_of_mem _ (Method.mem_set_graph_in name g ms f h hn)

/-- C7 (as stated, refuted): on the example module, whose rewriter marks every graph
it is run on, `vulkanFusePrePackedConvWithClamp` runs the fusion rules on the graph
of the root's `forward` method and on nothing else: the graph of the root's
`helper` method and the graph of the child's `forward` method are graphs of the
tree, are given to no collaborator, and come back unmarked. -/
theorem C7_fusion_skips_sub_modules_and_other_methods :
    (WithVulkan.vulkanFusePrePackedConvWithClamp PassFunctions.marking.traced
        exampleModule []).1 =
      .ok (.mk
        [⟨"forward",
            { exampleGraph "x" with outputs := ["res", "rewritten", "rewritten"] }⟩,
          ⟨"helper", exampleGraph "y"⟩]
        [.mk [⟨"forward", exampleGraph "z"⟩] [] []] []) ∧
    (WithVulkan.vulkanFusePrePackedConvWithClamp PassFunctions.marking.traced
        exampleModule []).2.filterMap Event.graph? =
      [exampleGraph "x", { exampleGraph "x" with outputs := ["res", "rewritten"] }] ∧
    exampleModule.allGraphs = [exampleGraph "x", exampleGraph "y", exampleGraph "z"] ∧
    exampleGraph "y" ∉
      (WithVulkan.vulkanFusePrePackedConvWithClamp PassFunctions.marking.traced
        exampleModule []).2.filterMap Event.graph? ∧
    exampleGraph "z" ∉
      (WithVulkan.vulkanFusePrePackedConvWithClamp PassFunctions.marking.traced
        exampleModule []).2.filterMap Event.graph? ∧
    ¬ (∀ g ∈ exampleModule.allGraphs, g ∈
      (WithVulkan.vulkanFusePrePackedConvWithClamp PassFunctions.marking.traced
        exampleModule []).2.filterMap Event.graph?) := by
  refine ⟨rfl, by decide, by decide, by decide, by decide, by decide⟩

/-- C7 (amended): the activation-fusion stage is applied to the graph of the
module's `forward` method only. On a module with a `forward` method it runs the
relu rules and then the hardtanh rules, both filtered by `isClampFusable`, on that
graph, calls nothing else, and returns the module with that one graph replaced:
the sub-modules and the other methods are as before. -/
theorem C7_fusion_runs_on_the_forward_graph_only
    (p : PassFunctions) (m : Module) (log : List Event) (forward : Method)
    (h : m.find_method "forward" = some forward) :
    WithVulkan.vulkanFusePrePackedConvWithClamp p.traced m log =
      (.ok (m.with_method_graph "forward"
          (p.runOnGraph WithVulkan.fuseHardtanhWithPackedOps.rewriter
            (some p.isClampFusable)
            (p.runOnGraph WithVulkan.fuseReluWithPackedOps.rewriter
              (some p.isClampFusable) forward.graph))),
        log ++
          [.runOnGraph WithVulkan.fuseReluWithPackedOps.rewriter (some p.isClampFusable)
              forward.graph,
            .runOnGraph WithVulkan.fuseHardtanhWithPackedOps.rewriter
              (some p.isClampFusable)
              (p.runOnGraph WithVulkan.fuseReluWithPackedOps.rewriter
                (some p.isClampFusable) forward.graph)]) ∧
    (∀ g : Graph, (m.with_method_graph "forward" g).children = m.children) ∧
    (∀ (g : Graph) (f : Method), f ∈ (m.with_method_graph "forward" g).get_methods →
      (f.name == "forward") = false → f ∈ m.get_methods) := by
  refine ⟨?_, fun g => Module.children_with_method_graph m _ g, ?_⟩
  · exact fuse_traced p m log forward h
  · intro g f hf hn
    cases m with
    | mk ms cs attrs =>
      exact Method.mem_set_graph_in "forward" g ms f hf hn

/-- The amended C7 on the example module: two calls, both on the graph of the
root's `forward` method. -/
theorem C7_fusion_runs_on_the_forward_graph_only_witness :
    exampleModule.find_method "forward" = some ⟨"forward", exampleGraph "x"⟩ ∧
    (WithVulkan.vulkanFusePrePackedConvWithClamp PassFunctions.marking.traced
        exampleModule []).2.map Event.callee = ["runOnGraph", "runOnGraph"] := by
  refine ⟨by decide, ?_⟩
  rw [(C7_fusion_runs_on_the_forward_graph_only PassFunctions.marking exampleModule []
    ⟨"forward", exampleGraph "x"⟩ (by decide)).1]
  rfl

end torch.jit
